import Mathlib

/-!
# Paired-read evidence engine of Manta (`SVScorerPair.cpp`)

A shallow embedding of `src/c++/lib/applications/GenerateSVCandidates/SVScorerPair.cpp`
and a verification of the properties stated for it.

Modelling conventions.

* `pos_t`, `int` and `unsigned` values are integers (`Int`, `Nat`). The half-fragment
  sizes of `getFragProb` and their sum (`fragSize`, the CDF argument) and the fragment
  range of the reference scan (`fragRangeInt32`) are computed with 32-bit wrap-around
  (`wrapInt32`); elsewhere the arithmetic is exact.
* A `float` is the rational number it denotes (`ℚ`): the constant `minFragProb` is the
  single-precision value of 0.0001, and `min(c, 1 - c)` is computed exactly, as it is in
  single precision for a CDF value `c` in `[0, 1]`. `fragDistro.cdf` is a field of the
  size distribution, so every statement holds for every distribution.
* A thrown `LogicException` or a failed `assert` is the `error` side of `Except`.
* Collaborators whose code is not part of the translation unit (`center_pos`,
  `is_innie_pair`, `setReadEvidence`, `isPairType`, `intervalCompressor`) are parameters
  of the functions that call them.
* Accessors of externally declared records are structure fields of the same name.
-/

namespace Manta

/-! ## Data model -/

/-- Chromosome-local coordinate (`pos_t`). -/
abbrev pos_t := Int

/-- Modelled from the spec: the declaration of `known_pos_range2` is not part of the
translation unit; a half-open position range `[begin_pos, end_pos)`. -/
structure known_pos_range2 where
  begin_pos : pos_t := 0
  end_pos : pos_t := 0
  deriving DecidableEq

/-- Modelled from the spec: `known_pos_range2::size()` is not part of the translation
unit; the number of positions of the half-open range, zero when it is empty or inverted. -/
def known_pos_range2.size (r : known_pos_range2) : Nat :=
  Int.toNat (r.end_pos - r.begin_pos)

/-- Modelled from the spec: the declaration of `GenomeInterval` is not part of the
translation unit; a chromosome id with a half-open position range. -/
structure GenomeInterval where
  tid : Int := 0
  range : known_pos_range2 := {}
  deriving DecidableEq

/-- Modelled from the spec: the declaration of `SVBreakendState` is not part of the
translation unit; the orientation states of the data model. Only the test
`state == RIGHT_OPEN` is made on it. -/
inductive SVBreakendState where
  | LEFT_OPEN
  | RIGHT_OPEN
  deriving DecidableEq

/-- Modelled from the spec: the declaration of `SVBreakend` is not part of the translation
unit; one endpoint of a candidate, with the members the engine reads. -/
structure SVBreakend where
  interval : GenomeInterval
  state : SVBreakendState
  deriving DecidableEq

/-- Modelled from the spec: the declaration of `SVCandidate` is not part of the
translation unit; two breakends and the candidate index. -/
structure SVCandidate where
  bp1 : SVBreakend
  bp2 : SVBreakend
  candidateIndex : Nat
  deriving DecidableEq

/-- Modelled from the spec: the declaration of `PairOptions` is not part of the
translation unit; `minFragSupport` is compared with `pos_t` values. -/
structure PairOptions where
  minFragSupport : pos_t

/-- Modelled from the spec: the declaration of `SizeDistribution` is not part of the
translation unit; a per-sample fragment size distribution, observed through its CDF. -/
structure SizeDistribution where
  cdf : Int → ℚ

/-- Aligned read, observed through the accessors the engine calls.
`apath_ref_length` is the reference length of the alignment path decoded from the
record's CIGAR (`apath_ref_length` of `bam_cigar_to_apath`). -/
structure bam_record where
  qname : String
  pos : Int
  mate_pos : Int
  target_id : Int
  mate_target_id : Int
  is_fwd_strand : Bool
  is_mate_fwd_strand : Bool
  read_size : Nat
  apath_ref_length : Nat
  template_size : Int
  is_filter : Bool
  is_dup : Bool
  is_secondary : Bool
  is_supplement : Bool
  is_unmapped : Bool
  is_mate_unmapped : Bool
  is_first : Bool
  map_qual : Nat
  deriving DecidableEq

/-- One mate of a stored pair; `isSet` tells whether the record was observed. -/
structure SVCandidateSetRead where
  isSet : Bool
  bamrec : bam_record

/-- Association of a stored pair with a candidate: candidate index and evidence type
(the evidence type is the integer value of the enumeration). -/
structure SVPairAssociation where
  index : Nat
  evtype : Nat

/-- Read pair stored during candidate generation. -/
structure SVCandidateSetReadPair where
  qname : String
  read1 : SVCandidateSetRead
  read2 : SVCandidateSetRead
  svLink : List SVPairAssociation

/-- Interval, strand and read size of one mate (`SpanReadInfo`). -/
structure SpanReadInfo where
  interval : GenomeInterval := {}
  isFwdStrand : Bool := true
  readSize : Nat := 0
  deriving DecidableEq

/-- One extreme end of a fragment in genomic coordinates (`SpanTerminal`). -/
structure SpanTerminal where
  tid : Int := 0
  pos : pos_t := 0
  isFwdStrand : Bool := true
  readSize : Nat := 0
  deriving DecidableEq

/-- The five messages of the fragment/breakend QC in `getFragProb`. -/
inductive MatchError where
  | chromBp1
  | chromBp2
  | strandBp1
  | strandBp2
  | positions
  deriving DecidableEq

/-- Fatal outcomes of the engine. -/
inductive Failure where
  /-- `LogicException` thrown by the QC of `getFragProb`. -/
  | logicMatch (msg : MatchError)
  /-- `LogicException` thrown when a fragment range fails to parse. -/
  | logicFragRange (fragBeginRefPos fragEndRefPos : pos_t)
  /-- Failed `assert`: neither read of a stored pair was found. -/
  | assertNoRead
  /-- Failed `assert`: the link index is not below the size of `svLink`. -/
  | assertLinkIndex
  deriving DecidableEq

/-- Modelled from the spec: the declaration of `SVFragmentEvidenceAlleleBreakend` is not
part of the translation unit; the support flag and fragment-length probability of one
allele at one breakend, unset (false, 0) on a fresh entry. -/
structure SVFragmentEvidenceAlleleBreakend where
  isFragmentSupport : Bool := false
  fragLengthProb : ℚ := 0
  deriving DecidableEq

/-- Modelled from the spec: the declaration of `SVFragmentEvidenceAllele` is not part of
the translation unit; the support of one allele by a fragment, at each breakend. -/
structure SVFragmentEvidenceAllele where
  bp1 : SVFragmentEvidenceAlleleBreakend := {}
  bp2 : SVFragmentEvidenceAlleleBreakend := {}
  deriving DecidableEq

/-- Read access of `getBp(isBp1)`. -/
def SVFragmentEvidenceAllele.getBp (a : SVFragmentEvidenceAllele) (isBp1 : Bool) :
    SVFragmentEvidenceAlleleBreakend :=
  if isBp1 then a.bp1 else a.bp2

/-- Write access through the reference returned by `getBp(isBp1)`. -/
def SVFragmentEvidenceAllele.setBp (a : SVFragmentEvidenceAllele) (isBp1 : Bool)
    (v : SVFragmentEvidenceAlleleBreakend) : SVFragmentEvidenceAllele :=
  if isBp1 then { a with bp1 := v } else { a with bp2 := v }

/-- Modelled from the spec: the declaration of `SVFragmentEvidenceRead` is not part of the
translation unit; per-mate read evidence (mapping-quality-gated observation flags). It is
written by `setReadEvidence` only. -/
structure SVFragmentEvidenceRead where
  isScanned : Bool := false
  isAnchored : Bool := false
  mapq : Nat := 0
  deriving DecidableEq

/-- Modelled from the spec: the declaration of `SVFragmentEvidence` is not part of the
translation unit; the evidence of one fragment: both mates, reference allele and
alternate allele. -/
structure SVFragmentEvidence where
  read1 : SVFragmentEvidenceRead := {}
  read2 : SVFragmentEvidenceRead := {}
  ref : SVFragmentEvidenceAllele := {}
  alt : SVFragmentEvidenceAllele := {}
  deriving DecidableEq

/-- Read access of `getRead(isRead1)`. -/
def SVFragmentEvidence.getRead (f : SVFragmentEvidence) (isRead1 : Bool) :
    SVFragmentEvidenceRead :=
  if isRead1 then f.read1 else f.read2

/-- Write access through the reference returned by `getRead(isRead1)`. -/
def SVFragmentEvidence.setRead (f : SVFragmentEvidence) (isRead1 : Bool)
    (v : SVFragmentEvidenceRead) : SVFragmentEvidence :=
  if isRead1 then { f with read1 := v } else { f with read2 := v }

/-- Modelled from the spec: the declaration of `evidenceTrack_t` is not part of the
translation unit; a map from query name to fragment evidence. -/
abbrev evidenceTrack_t := String → Option SVFragmentEvidence

/-- Value found by `track[qname]`: the stored entry, or a default-constructed one. -/
def evidenceTrack_t.subscript (track : evidenceTrack_t) (qname : String) : SVFragmentEvidence :=
  (track qname).getD {}

/-- Track after the entry reached through `track[qname]` has been written. -/
def evidenceTrack_t.assign (track : evidenceTrack_t) (qname : String)
    (fragment : SVFragmentEvidence) : evidenceTrack_t :=
  fun name => if name = qname then some fragment else track name

/-- Modelled from the spec: the declaration of `SVEvidence` is not part of the translation
unit; one evidence track for normal and one for tumor samples, selected by
`getSample(isTumor)`. -/
structure SVEvidence where
  normal : evidenceTrack_t
  tumor : evidenceTrack_t

/-- Read access of `getSample(isTumor)`. -/
def SVEvidence.getSample (evidence : SVEvidence) (isTumor : Bool) : evidenceTrack_t :=
  if isTumor then evidence.tumor else evidence.normal

/-- Write access through the reference returned by `getSample(isTumor)`. -/
def SVEvidence.setSample (evidence : SVEvidence) (isTumor : Bool)
    (track : evidenceTrack_t) : SVEvidence :=
  if isTumor then { evidence with tumor := track } else { evidence with normal := track }

/-- Alignment stream: the records delivered by `next()` after
`set_new_region(tid, beginPos, endPos)`. -/
abbrev bam_streamer := Int → pos_t → pos_t → List bam_record

/-- Usable fragment-size range of a sample, as the two `pos_t` values obtained from
`pRange.min` and `pRange.max`. -/
structure Range where
  min : pos_t
  max : pos_t

/-- Read scanner configuration, observed through the accessors the engine calls. -/
structure SVLocusScanner where
  getMinMapQ : Nat
  getEvidencePairRange : Nat → Range
  getFragSizeDistro : Nat → SizeDistribution

/-- State of the scorer read by the pair-support functions. -/
structure SVScorer where
  _bamStreams : List bam_streamer
  _isAlignmentTumor : Nat → Bool
  _readScanner : SVLocusScanner

/-! ## Fragment terminal and probability model -/

/-- `getFragInfo(localRead, local, remote)`: the observed mate and the approximation of
its mate; returns `(local, remote)`. -/
def getFragInfoRecord (localRead : bam_record) : SpanReadInfo × SpanReadInfo :=
  let localBeginPos : pos_t := localRead.pos - 1
  let localEndPos : pos_t := localBeginPos + localRead.apath_ref_length
  let localInfo : SpanReadInfo :=
    { isFwdStrand := localRead.is_fwd_strand
      readSize := localRead.read_size
      interval := { tid := localRead.target_id
                    range := { begin_pos := localBeginPos, end_pos := localEndPos } } }
  let remoteBeginPos : pos_t := localRead.mate_pos - 1
  let remoteEndPos : pos_t := remoteBeginPos + localRead.read_size
  let remoteInfo : SpanReadInfo :=
    { isFwdStrand := localRead.is_mate_fwd_strand
      readSize := localInfo.readSize
      interval := { tid := localRead.mate_target_id
                    range := { begin_pos := remoteBeginPos, end_pos := remoteEndPos } } }
  (localInfo, remoteInfo)

/-- `getFragInfo(pair, read1, read2)`: returns `(read1, read2)`, or the failed assertion
when neither mate is observed. -/
def getFragInfo (pair : SVCandidateSetReadPair) : Except Failure (SpanReadInfo × SpanReadInfo) :=
  if pair.read1.isSet then
    let r := getFragInfoRecord pair.read1.bamrec
    let read1 := r.1
    let read2 := r.2
    if pair.read2.isSet then
      let bamRead2 := pair.read2.bamrec
      let read2 : SpanReadInfo := { read2 with readSize := bamRead2.read_size }
      let read2 : SpanReadInfo :=
        { read2 with
          interval := { read2.interval with
            range := { read2.interval.range with
              end_pos := read2.interval.range.begin_pos + bamRead2.apath_ref_length } } }
      .ok (read1, read2)
    else
      .ok (read1, read2)
  else if pair.read2.isSet then
    let r := getFragInfoRecord pair.read2.bamrec
    .ok (r.2, r.1)
  else
    .error Failure.assertNoRead

/-- Convert `SpanReadInfo` to `SpanTerminal`. -/
def getTerminal (rinfo : SpanReadInfo) : SpanTerminal :=
  { tid := rinfo.interval.tid
    isFwdStrand := rinfo.isFwdStrand
    pos := if rinfo.isFwdStrand then rinfo.interval.range.begin_pos
           else rinfo.interval.range.end_pos
    readSize := rinfo.readSize }

/-- The flag `isBpFragReversed` of `getFragProb` ("match bp to frag"). -/
def isBpFragReversed (sv : SVCandidate) (bp1pos bp2pos : pos_t)
    (frag1 frag2 : SpanTerminal) : Bool :=
  if frag1.tid ≠ sv.bp1.interval.tid then
    true
  else if frag1.isFwdStrand ≠ decide (sv.bp1.state = SVBreakendState.RIGHT_OPEN) then
    true
  else if frag1.isFwdStrand = frag2.isFwdStrand then
    if decide (frag1.pos < frag2.pos) ≠ decide (bp1pos < bp2pos) then
      if frag1.pos ≠ frag2.pos then true else false
    else false
  else false

/-- The statement `if (isBpFragReversed) std::swap(frag1,frag2)`: the pair
`(frag1, frag2)` after it. -/
def swapIfReversed (sv : SVCandidate) (bp1pos bp2pos : pos_t)
    (frag1 frag2 : SpanTerminal) : SpanTerminal × SpanTerminal :=
  if isBpFragReversed sv bp1pos bp2pos frag1 frag2 then (frag2, frag1) else (frag1, frag2)

/-- The two terminals of `getFragProb` after the disambiguation and the swap (when
reversed): `(frag1, frag2)` as they stand when the QC starts. -/
def matchBpToFrag (center_pos : known_pos_range2 → pos_t) (sv : SVCandidate)
    (pair : SVCandidateSetReadPair) : Except Failure (SpanTerminal × SpanTerminal) :=
  match getFragInfo pair with
  | .error e => .error e
  | .ok (read1, read2) =>
    let frag1 := getTerminal read1
    let frag2 := getTerminal read2
    let bp1pos := center_pos sv.bp1.interval.range
    let bp2pos := center_pos sv.bp2.interval.range
    .ok (swapIfReversed sv bp1pos bp2pos frag1 frag2)

/-- The message `errorMsg` left by the QC block of `getFragProb` (`none` when empty).
Within a branch the test against bp2 comes second and overwrites the message of bp1. -/
def qcFragBpMatchup (sv : SVCandidate) (bp1pos bp2pos : pos_t)
    (frag1 frag2 : SpanTerminal) : Option MatchError :=
  if frag1.tid ≠ frag2.tid then
    let errorMsg : Option MatchError :=
      if frag1.tid ≠ sv.bp1.interval.tid then some MatchError.chromBp1 else none
    if frag2.tid ≠ sv.bp2.interval.tid then some MatchError.chromBp2 else errorMsg
  else if frag1.isFwdStrand ≠ frag2.isFwdStrand then
    let errorMsg : Option MatchError :=
      if frag1.isFwdStrand ≠ decide (sv.bp1.state = SVBreakendState.RIGHT_OPEN) then
        some MatchError.strandBp1 else none
    if frag2.isFwdStrand ≠ decide (sv.bp2.state = SVBreakendState.RIGHT_OPEN) then
      some MatchError.strandBp2 else errorMsg
  else
    if decide (frag1.pos < frag2.pos) ≠ decide (bp1pos < bp2pos) then
      if frag1.pos ≠ frag2.pos then some MatchError.positions else none
    else none

/-- Value held by a 32-bit signed machine integer after an operation whose mathematical
result is `x` (wrap-around modulo 2^32). -/
def wrapInt32 (x : Int) : Int :=
  (x + 2147483648) % 4294967296 - 2147483648

/-- Implied half-fragment size of a terminal against its breakend center
(`frag1Size`, `frag2Size`), computed with 32-bit signed `pos_t` arithmetic:
`pos_t fragSize(bppos-frag.pos); if (! frag.isFwdStrand) fragSize *= -1;`. -/
def fragSize (bppos : pos_t) (frag : SpanTerminal) : pos_t :=
  let size := wrapInt32 (bppos - frag.pos)
  if ¬ frag.isFwdStrand then wrapInt32 (size * (-1)) else size

/-- The constant `static const float minFragProb(0.0001)` of `getFragProb`: the
single-precision value nearest to 0.0001, which is 13743895 / 2^37 and lies just below
1/10000. A `float` is modelled by the rational number it denotes. -/
def minFragProb : ℚ := 13743895 / 137438953472

/-- `getFragProb`: the out-parameters `(isFragSupportSV, fragProb)`, or the exception.
The argument of the CDF is the 32-bit sum `frag1Size+frag2Size`. -/
def getFragProb (center_pos : known_pos_range2 → pos_t) (pairOpt : PairOptions)
    (sv : SVCandidate) (pair : SVCandidateSetReadPair) (fragDistro : SizeDistribution)
    (isStrictMatch : Bool) : Except Failure (Bool × ℚ) :=
  match matchBpToFrag center_pos sv pair with
  | .error e => .error e
  | .ok (frag1, frag2) =>
    let bp1pos := center_pos sv.bp1.interval.range
    let bp2pos := center_pos sv.bp2.interval.range
    match qcFragBpMatchup sv bp1pos bp2pos frag1 frag2 with
    | some errorMsg =>
      if ¬ isStrictMatch then .ok (false, 0)
      else .error (Failure.logicMatch errorMsg)
    | none =>
      let frag1Size := fragSize bp1pos frag1
      let frag2Size := fragSize bp2pos frag2
      if frag1Size < pairOpt.minFragSupport then .ok (false, 0)
      else if frag2Size < pairOpt.minFragSupport then .ok (false, 0)
      else
        let fragProb := fragDistro.cdf (wrapInt32 (frag1Size + frag2Size))
        let fragProb := min fragProb (1 - fragProb)
        .ok (decide (fragProb ≥ minFragProb), fragProb)

/-- The fragment size passed to `fragDistro.cdf` by `getFragProb` (the total implied
fragment size `frag1Size+frag2Size`, a 32-bit sum): `none` when the function returns
before the lookup, the exception when it throws. -/
def getFragProbSize (center_pos : known_pos_range2 → pos_t) (pairOpt : PairOptions)
    (sv : SVCandidate) (pair : SVCandidateSetReadPair) (isStrictMatch : Bool) :
    Except Failure (Option pos_t) :=
  match matchBpToFrag center_pos sv pair with
  | .error e => .error e
  | .ok (frag1, frag2) =>
    let bp1pos := center_pos sv.bp1.interval.range
    let bp2pos := center_pos sv.bp2.interval.range
    match qcFragBpMatchup sv bp1pos bp2pos frag1 frag2 with
    | some errorMsg =>
      if ¬ isStrictMatch then .ok none
      else .error (Failure.logicMatch errorMsg)
    | none =>
      let frag1Size := fragSize bp1pos frag1
      let frag2Size := fragSize bp2pos frag2
      if frag1Size < pairOpt.minFragSupport then .ok none
      else if frag2Size < pairOpt.minFragSupport then .ok none
      else .ok (some (wrapInt32 (frag1Size + frag2Size)))

/-- The message left by the QC of `getFragProb` for a pair against a candidate: `none`
when the QC finds no mismatch (or is not reached). -/
def fragBpMismatch (center_pos : known_pos_range2 → pos_t) (sv : SVCandidate)
    (pair : SVCandidateSetReadPair) : Option MatchError :=
  match matchBpToFrag center_pos sv pair with
  | .error _ => none
  | .ok (frag1, frag2) =>
    qcFragBpMatchup sv (center_pos sv.bp1.interval.range) (center_pos sv.bp2.interval.range)
      frag1 frag2

/-- The candidate with its two breakends exchanged. -/
def SVCandidate.swapBreakends (sv : SVCandidate) : SVCandidate :=
  { sv with bp1 := sv.bp2, bp2 := sv.bp1 }

/-- Two-sided probability `min(cdf(size), 1 - cdf(size))` of a fragment size. -/
def twoSidedProb (fragDistro : SizeDistribution) (size : Int) : ℚ :=
  min (fragDistro.cdf size) (1 - fragDistro.cdf size)

/-- The swap rule of `getFragProb` in the words of the specification, in priority order:
terminal 1 is not on the chromosome of bp1; otherwise the strand of terminal 1 differs
from the orientation of bp1 (forward if and only if RIGHT_OPEN); otherwise the two
terminals have the same strand, their positions differ, and `t1.pos < t2.pos` differs
from `center(bp1) < center(bp2)`. -/
def specTerminalsSwapped (sv : SVCandidate) (bp1pos bp2pos : pos_t)
    (t1 t2 : SpanTerminal) : Bool :=
  decide (t1.tid ≠ sv.bp1.interval.tid) ||
  (decide (t1.tid = sv.bp1.interval.tid) &&
    (t1.isFwdStrand != decide (sv.bp1.state = SVBreakendState.RIGHT_OPEN))) ||
  (decide (t1.tid = sv.bp1.interval.tid) &&
    (t1.isFwdStrand == decide (sv.bp1.state = SVBreakendState.RIGHT_OPEN)) &&
    (t1.isFwdStrand == t2.isFwdStrand) &&
    decide (t1.pos ≠ t2.pos) &&
    (decide (t1.pos < t2.pos) != decide (bp1pos < bp2pos)))

/-- Half-fragment size in the words of the specification: the breakend center minus the
terminal position, negated when the terminal is on the reverse strand. -/
def specHalfFragSize (bppos : pos_t) (t : SpanTerminal) : Int :=
  if t.isFwdStrand then bppos - t.pos else -(bppos - t.pos)

/-- A terminal matches a breakend, in the words of the specification: it lies on the
chromosome of the breakend and is on the forward strand exactly when the breakend is
RIGHT_OPEN. -/
def specTerminalMatches (t : SpanTerminal) (bp : SVBreakend) : Prop :=
  t.tid = bp.interval.tid ∧ t.isFwdStrand = decide (bp.state = SVBreakendState.RIGHT_OPEN)

instance (t : SpanTerminal) (bp : SVBreakend) : Decidable (specTerminalMatches t bp) := by
  unfold specTerminalMatches
  infer_instance

/-- Inputs for which the exchange of bp1 and bp2 is stated to leave the outcome of
`getFragProb` unchanged. One of: (a) both terminals and both breakends lie on one
chromosome and the terminals are on opposite strands; (b) the pair matches the candidate
(the two terminals can be assigned to the two breakends so that each terminal matches its
breakend) and the terminals are not on different chromosomes with the same strand;
(c) the terminals lie on different chromosomes and the breakends do not lie one on each
of these two chromosomes. -/
def specSwapSymmetricInput (sv : SVCandidate) (t1 t2 : SpanTerminal) : Prop :=
  (t1.tid = t2.tid ∧ sv.bp1.interval.tid = t1.tid ∧ sv.bp2.interval.tid = t1.tid ∧
      t1.isFwdStrand ≠ t2.isFwdStrand) ∨
    ((specTerminalMatches t1 sv.bp1 ∧ specTerminalMatches t2 sv.bp2 ∨
        specTerminalMatches t1 sv.bp2 ∧ specTerminalMatches t2 sv.bp1) ∧
      ¬ (t1.tid ≠ t2.tid ∧ t1.isFwdStrand = t2.isFwdStrand)) ∨
    (t1.tid ≠ t2.tid ∧
      ¬ (sv.bp1.interval.tid = t1.tid ∧ sv.bp2.interval.tid = t2.tid) ∧
      ¬ (sv.bp1.interval.tid = t2.tid ∧ sv.bp2.interval.tid = t1.tid))

instance (sv : SVCandidate) (t1 t2 : SpanTerminal) :
    Decidable (specSwapSymmetricInput sv t1 t2) := by
  unfold specSwapSymmetricInput
  infer_instance

/-- `setAlleleFrag`: the per-breakend record after the call. -/
def setAlleleFrag (fragDistro : SizeDistribution) (size : Int)
    (_bp : SVFragmentEvidenceAlleleBreakend) : SVFragmentEvidenceAlleleBreakend :=
  let fragProb := fragDistro.cdf size
  let fragProb := min fragProb (1 - fragProb)
  { isFragmentSupport := true, fragLengthProb := fragProb }

/-- Region passed to `set_new_region` for one sample in `getSVRefPairSupport`, or
`none` when the sample is skipped (`beginPos >= endPos`). -/
def refPairScanRegion (pairOpt : PairOptions) (centerPos maxFrag : pos_t) :
    Option (pos_t × pos_t) :=
  let maxSupportedFrag := maxFrag - pairOpt.minFragSupport
  let beginPos := centerPos - maxSupportedFrag
  let endPos := centerPos + maxSupportedFrag + 1
  if beginPos ≥ endPos then none else some (beginPos, endPos)

/-- Filters of the record loop of `getSVRefPairSupport`, up to the evidence update:
`none` when a `continue` is taken, `some templateSize` when the update is reached. -/
def refPairRecordFilter (is_innie_pair : bam_record → Bool) (pairOpt : PairOptions)
    (centerPos minFrag maxFrag : pos_t) (bamRead : bam_record) :
    Except Failure (Option Int) :=
  if bamRead.is_filter then .ok none
  else if bamRead.is_dup then .ok none
  else if bamRead.is_secondary then .ok none
  else if bamRead.is_supplement then .ok none
  else if bamRead.is_unmapped || bamRead.is_mate_unmapped then .ok none
  else if ¬ is_innie_pair bamRead then .ok none
  else
    let templateSize : Int := |bamRead.template_size|
    if templateSize < minFrag then .ok none
    else if templateSize > maxFrag then .ok none
    else
      let isLeftMost : Bool := decide (bamRead.pos < bamRead.mate_pos)
      let fragBeginRefPos : pos_t :=
        if isLeftMost then bamRead.pos - 1 else bamRead.mate_pos - 1
      let fragEndRefPos : pos_t := fragBeginRefPos + templateSize
      if fragBeginRefPos > fragEndRefPos then
        .error (Failure.logicFragRange fragBeginRefPos fragEndRefPos)
      else
        let fragOverlap : pos_t :=
          min (1 + centerPos - fragBeginRefPos) (fragEndRefPos - centerPos)
        if fragOverlap < pairOpt.minFragSupport then .ok none
        else .ok (some templateSize)

/-- Overlap of a fragment with the breakend center in the words of the specification:
with `fragBegin = min(pos, matePos) - 1` and `fragEnd = fragBegin + |templateSize|`, the
overlap is `min(center - fragBegin + 1, fragEnd - center)`. -/
def specFragOverlap (centerPos : pos_t) (bamRead : bam_record) : Int :=
  let fragBegin := min bamRead.pos bamRead.mate_pos - 1
  let fragEnd := fragBegin + |bamRead.template_size|
  min (centerPos - fragBegin + 1) (fragEnd - centerPos)

/-- The pair `(fragBeginRefPos, fragEndRefPos)` of the record loop of
`getSVRefPairSupport`, computed with 32-bit signed `int` and `pos_t` arithmetic. -/
def fragRangeInt32 (bamRead : bam_record) : pos_t × pos_t :=
  let templateSize : Int := wrapInt32 |bamRead.template_size|
  let isLeftMost : Bool := decide (bamRead.pos < bamRead.mate_pos)
  let fragBeginRefPos : pos_t :=
    if isLeftMost then wrapInt32 (bamRead.pos - 1) else wrapInt32 (bamRead.mate_pos - 1)
  let fragEndRefPos : pos_t := wrapInt32 (fragBeginRefPos + templateSize)
  (fragBeginRefPos, fragEndRefPos)

/-- Evidence update made for an accepted record in `getSVRefPairSupport`. -/
def refPairRecordUpdate
    (setReadEvidence : Nat → bam_record → SVFragmentEvidenceRead → SVFragmentEvidenceRead)
    (minMapQ : Nat) (isTumor : Bool) (fragDistro : SizeDistribution) (isBp1 : Bool)
    (bamRead : bam_record) (templateSize : Int) (evidence : SVEvidence) : SVEvidence :=
  let track := evidence.getSample isTumor
  let fragment := track.subscript bamRead.qname
  let evRead := fragment.getRead bamRead.is_first
  let fragment := fragment.setRead bamRead.is_first (setReadEvidence minMapQ bamRead evRead)
  let fragment : SVFragmentEvidence :=
    { fragment with
      ref := fragment.ref.setBp isBp1
        (setAlleleFrag fragDistro templateSize (fragment.ref.getBp isBp1)) }
  evidence.setSample isTumor (track.assign bamRead.qname fragment)

/-- Body of the record loop of `getSVRefPairSupport` (single breakend). -/
def getSVRefPairSupportRecord (is_innie_pair : bam_record → Bool)
    (setReadEvidence : Nat → bam_record → SVFragmentEvidenceRead → SVFragmentEvidenceRead)
    (pairOpt : PairOptions) (centerPos : pos_t) (minMapQ : Nat) (isTumor : Bool)
    (minFrag maxFrag : pos_t) (fragDistro : SizeDistribution) (isBp1 : Bool)
    (evidence : SVEvidence) (bamRead : bam_record) : Except Failure SVEvidence :=
  match refPairRecordFilter is_innie_pair pairOpt centerPos minFrag maxFrag bamRead with
  | .error e => .error e
  | .ok none => .ok evidence
  | .ok (some templateSize) =>
    .ok (refPairRecordUpdate setReadEvidence minMapQ isTumor fragDistro isBp1 bamRead
      templateSize evidence)

/-- Body of the sample loop of `getSVRefPairSupport` (single breakend). -/
def getSVRefPairSupportSample (is_innie_pair : bam_record → Bool)
    (setReadEvidence : Nat → bam_record → SVFragmentEvidenceRead → SVFragmentEvidenceRead)
    (self : SVScorer) (pairOpt : PairOptions) (bp : SVBreakend) (isBp1 : Bool)
    (centerPos : pos_t) (evidence : SVEvidence) (bamIndex : Nat) (bamStream : bam_streamer) :
    Except Failure SVEvidence :=
  let minMapQ := self._readScanner.getMinMapQ
  let isTumor := self._isAlignmentTumor bamIndex
  let pRange := self._readScanner.getEvidencePairRange bamIndex
  let minFrag : pos_t := pRange.min
  let maxFrag : pos_t := pRange.max
  let fragDistro := self._readScanner.getFragSizeDistro bamIndex
  match refPairScanRegion pairOpt centerPos maxFrag with
  | none => .ok evidence
  | some (beginPos, endPos) =>
    (bamStream bp.interval.tid beginPos endPos).foldlM
      (getSVRefPairSupportRecord is_innie_pair setReadEvidence pairOpt centerPos minMapQ
        isTumor minFrag maxFrag fragDistro isBp1)
      evidence

/-- `SVScorer::getSVRefPairSupport(pairOpt, bp, isBp1, evidence)`: reference allele pair
support at a single breakend. -/
def getSVRefPairSupportBp (center_pos : known_pos_range2 → pos_t)
    (is_innie_pair : bam_record → Bool)
    (setReadEvidence : Nat → bam_record → SVFragmentEvidenceRead → SVFragmentEvidenceRead)
    (self : SVScorer) (pairOpt : PairOptions) (bp : SVBreakend) (isBp1 : Bool)
    (evidence : SVEvidence) : Except Failure SVEvidence :=
  let centerPos := center_pos bp.interval.range
  self._bamStreams.enum.foldlM
    (fun ev s => getSVRefPairSupportSample is_innie_pair setReadEvidence self pairOpt bp isBp1
      centerPos ev s.1 s.2)
    evidence

/-- `SVScorer::getSVRefPairSupport(pairOpt, sv, evidence)`: both breakends in turn. -/
def getSVRefPairSupport (center_pos : known_pos_range2 → pos_t)
    (is_innie_pair : bam_record → Bool)
    (setReadEvidence : Nat → bam_record → SVFragmentEvidenceRead → SVFragmentEvidenceRead)
    (self : SVScorer) (pairOpt : PairOptions) (sv : SVCandidate)
    (evidence : SVEvidence) : Except Failure SVEvidence :=
  match getSVRefPairSupportBp center_pos is_innie_pair setReadEvidence self pairOpt sv.bp1 true
      evidence with
  | .error e => .error e
  | .ok evidence =>
    getSVRefPairSupportBp center_pos is_innie_pair setReadEvidence self pairOpt sv.bp2 false
      evidence

/-! ## Existing-evidence reconciler -/

/-- Search of `pair.svLink` for the candidate index: the value of `linkIndex` when
`isIndexFound` is set, `none` when the loop ends without finding it. -/
def findLinkIndex (candidateIndex : Nat) : List SVPairAssociation → Nat → Option Nat
  | [], _ => none
  | sva :: rest, linkIndex =>
    if candidateIndex = sva.index then some linkIndex
    else findLinkIndex candidateIndex rest (linkIndex + 1)

/-- The two guarded `setReadEvidence` calls of `processExistingAltPairInfo`: the fragment
after them. -/
def setPairReadEvidence
    (setReadEvidence : Nat → bam_record → SVFragmentEvidenceRead → SVFragmentEvidenceRead)
    (minMapQ : Nat) (pair : SVCandidateSetReadPair) (fragment : SVFragmentEvidence) :
    SVFragmentEvidence :=
  let fragment : SVFragmentEvidence :=
    if pair.read1.isSet then
      { fragment with read1 := setReadEvidence minMapQ pair.read1.bamrec fragment.read1 }
    else fragment
  let fragment : SVFragmentEvidence :=
    if pair.read2.isSet then
      { fragment with read2 := setReadEvidence minMapQ pair.read2.bamrec fragment.read2 }
    else fragment
  fragment

/-- The four assignments to `alt.bp1` and `alt.bp2` that end the pair loop of
`processExistingAltPairInfo`: the fragment after them. -/
def setAltFragSupport (fragment : SVFragmentEvidence) (fragProb : ℚ) : SVFragmentEvidence :=
  let alt : SVFragmentEvidenceAllele :=
    { bp1 := { fragment.alt.bp1 with isFragmentSupport := true, fragLengthProb := fragProb }
      bp2 := { fragment.alt.bp2 with isFragmentSupport := true, fragLengthProb := fragProb } }
  { fragment with alt := alt }

/-- Body of the pair loop of `processExistingAltPairInfo`. -/
def processExistingAltPair (center_pos : known_pos_range2 → pos_t)
    (isPairType : Nat → Bool)
    (setReadEvidence : Nat → bam_record → SVFragmentEvidenceRead → SVFragmentEvidenceRead)
    (pairOpt : PairOptions) (sv : SVCandidate) (minMapQ : Nat) (isTumor : Bool)
    (fragDistro : SizeDistribution) (evidence : SVEvidence)
    (pair : SVCandidateSetReadPair) : Except Failure SVEvidence :=
  if ¬ (pair.read1.isSet || pair.read2.isSet) then .error Failure.assertNoRead
  else
    match findLinkIndex sv.candidateIndex pair.svLink 0 with
    | none => .ok evidence
    | some linkIndex =>
      match pair.svLink[linkIndex]? with
      | none => .error Failure.assertLinkIndex
      | some link =>
        let isStrictMatch : Bool := isPairType link.evtype
        let qname := pair.qname
        let track := evidence.getSample isTumor
        let fragment := track.subscript qname
        let fragment := setPairReadEvidence setReadEvidence minMapQ pair fragment
        match getFragProb center_pos pairOpt sv pair fragDistro isStrictMatch with
        | .error e => .error e
        | .ok (isFragSupportSV, fragProb) =>
          if ¬ isFragSupportSV then .ok (evidence.setSample isTumor (track.assign qname fragment))
          else if fragProb ≤ 0 then .ok (evidence.setSample isTumor (track.assign qname fragment))
          else
            let fragment := setAltFragSupport fragment fragProb
            .ok (evidence.setSample isTumor (track.assign qname fragment))

/-- `SVScorer::processExistingAltPairInfo`; `svData bamIndex` is the data group of the
sample. -/
def processExistingAltPairInfo (center_pos : known_pos_range2 → pos_t)
    (isPairType : Nat → Bool)
    (setReadEvidence : Nat → bam_record → SVFragmentEvidenceRead → SVFragmentEvidenceRead)
    (self : SVScorer) (pairOpt : PairOptions) (svData : Nat → List SVCandidateSetReadPair)
    (sv : SVCandidate) (evidence : SVEvidence) : Except Failure SVEvidence :=
  let minMapQ := self._readScanner.getMinMapQ
  (List.range self._bamStreams.length).foldlM
    (fun ev bamIndex =>
      let isTumor := self._isAlignmentTumor bamIndex
      let fragDistro := self._readScanner.getFragSizeDistro bamIndex
      (svData bamIndex).foldlM
        (processExistingAltPair center_pos isPairType setReadEvidence pairOpt sv minMapQ
          isTumor fragDistro)
        ev)
    evidence

/-! ## Scan coordinator -/

/-- Scan processor (`SVScorer::bamProcPtr`), observed through the interval it requests
for each sample (`nextBamIndex`). -/
structure bamProc where
  nextBamIndex : Nat → GenomeInterval

/-- One call `bamProcList[procIndex]->processRecord(bamRead)`, with the sample and the
scan interval during which it is made. -/
structure processRecordCall where
  bamIndex : Nat
  intervalIndex : Nat
  procIndex : Nat
  bamRead : bam_record
  deriving DecidableEq

/-- The vector `scanIntervals` as passed to `intervalCompressor`: the requested
intervals in processor order, without those of size below one. -/
def requestedScanIntervals (bamProcList : List bamProc) (bamIndex : Nat) :
    List GenomeInterval :=
  (bamProcList.map (fun bpp => bpp.nextBamIndex bamIndex)).filter
    (fun interval => ¬ (interval.range.size < 1))

/-- Unchecked read `v[i]` of a `std::vector<unsigned>`. A read past the end is
undefined behaviour in the source; the value it yields is the parameter `outOfBounds`,
so that statements hold whatever is read there. -/
def vectorRead (v : List Nat) (outOfBounds : Nat → Nat) (i : Nat) : Nat :=
  match v.get? i with
  | some x => x
  | none => outOfBounds i

/-- The vector `targetProcs` built for one scan interval. -/
def targetProcs (intervalMap : List Nat) (outOfBounds : Nat → Nat)
    (bamProcCount intervalIndex : Nat) : List Nat :=
  (List.range bamProcCount).filter
    (fun procIndex => vectorRead intervalMap outOfBounds procIndex = intervalIndex)

/-- `processBamProcList`: the sequence of `processRecord` calls it makes.
`intervalCompressor` returns its argument after the in-place compression together with
the returned index map. -/
def processBamProcList
    (intervalCompressor : List GenomeInterval → List GenomeInterval × List Nat)
    (outOfBounds : Nat → Nat) (bamList : List bam_streamer) (bamProcList : List bamProc) :
    List processRecordCall :=
  let bamProcCount := bamProcList.length
  bamList.enum.flatMap fun sample =>
    let bamIndex := sample.1
    let bamStream := sample.2
    let compressed := intervalCompressor (requestedScanIntervals bamProcList bamIndex)
    let scanIntervals := compressed.1
    let intervalMap := compressed.2
    scanIntervals.enum.flatMap fun scan =>
      let intervalIndex := scan.1
      let scanInterval := scan.2
      if scanInterval.range.begin_pos ≥ scanInterval.range.end_pos then []
      else
        let procs := targetProcs intervalMap outOfBounds bamProcCount intervalIndex
        (bamStream scanInterval.tid scanInterval.range.begin_pos
            scanInterval.range.end_pos).flatMap fun bamRead =>
          procs.map fun procIndex =>
            { bamIndex := bamIndex, intervalIndex := intervalIndex,
              procIndex := procIndex, bamRead := bamRead }

/-! ## Concrete inputs used by the examples -/

/-- Midpoint of a range: the breakend center used by the examples. -/
def rangeCenter (r : known_pos_range2) : pos_t :=
  r.begin_pos + (((max r.size 1 - 1) / 2 : Nat) : Int)

/-- Example record: a mapped first-in-pair read of ten bases aligned without gaps. -/
def exampleRead (qname : String) (tid pos : Int) (fwd : Bool) (mtid mpos : Int) (mfwd : Bool)
    (tsize : Int) : bam_record :=
  { qname := qname, pos := pos, mate_pos := mpos, target_id := tid, mate_target_id := mtid,
    is_fwd_strand := fwd, is_mate_fwd_strand := mfwd, read_size := 10, apath_ref_length := 10,
    template_size := tsize, is_filter := false, is_dup := false, is_secondary := false,
    is_supplement := false, is_unmapped := false, is_mate_unmapped := false,
    is_first := true, map_qual := 60 }

/-- Example stored pair: only the first mate is observed; it is linked to candidate 0
with evidence type `evtype`. -/
def examplePair (r : bam_record) (evtype : Nat) : SVCandidateSetReadPair :=
  { qname := r.qname, read1 := ⟨true, r⟩, read2 := ⟨false, r⟩, svLink := [⟨0, evtype⟩] }

/-- Example breakend: a one-base interval at `pos`. -/
def exampleBp (tid : Int) (pos : pos_t) (state : SVBreakendState) : SVBreakend :=
  { interval := { tid := tid, range := { begin_pos := pos, end_pos := pos + 1 } },
    state := state }

/-- Example distribution: the CDF is one half at every size. -/
def flatDistro : SizeDistribution := { cdf := fun _ => 1 / 2 }

/-- Example options: the minimal half-fragment support is fifty bases. -/
def exampleOpt : PairOptions := { minFragSupport := 50 }

/-- Example processor whose requested interval is empty for every sample. -/
def emptyRequestProc : bamProc :=
  { nextBamIndex := fun _ => { tid := 0, range := { begin_pos := 0, end_pos := 0 } } }

/-- Example processor requesting the interval `[10, 20)` of chromosome 0 for every sample. -/
def windowProc : bamProc :=
  { nextBamIndex := fun _ => { tid := 0, range := { begin_pos := 10, end_pos := 20 } } }

/-- Example stream delivering one record in every region. -/
def oneRecordStream : bam_streamer :=
  fun _ _ _ => [exampleRead "q" 0 12 true 0 112 false 110]

/-- Example compressor that leaves the intervals as they are and maps each one to itself. -/
def identityCompressor (intervals : List GenomeInterval) : List GenomeInterval × List Nat :=
  (intervals, List.range intervals.length)

/-- Example distribution for the threshold scenario: the CDF is 0.00005 at every size. -/
def tailDistro : SizeDistribution := { cdf := fun _ => 5 / 100000 }

/-- Example distribution for the threshold boundary: the CDF is the single-precision
value of 0.0001 at every size. -/
def thresholdDistro : SizeDistribution := { cdf := fun _ => 13743895 / 137438953472 }

/-- Example distribution that tells negative sizes from the others: the CDF is 0 below
zero and one half from zero on. -/
def signDistro : SizeDistribution := { cdf := fun size => if size < 0 then 0 else 1 / 2 }

/-- Example candidate with distant breakends on chromosome 1: a RIGHT_OPEN breakend at
2147483000 and a LEFT_OPEN breakend at 100. -/
def exampleFarCandidate : SVCandidate :=
  { bp1 := exampleBp 1 2147483000 .RIGHT_OPEN, bp2 := exampleBp 1 100 .LEFT_OPEN,
    candidateIndex := 0 }

/-- Example stored pair for `exampleFarCandidate`: a forward read starting at 50 whose
reverse mate ends at 2147483010. Both half-fragment sizes fit a 32-bit signed integer,
their sum 4294965860 does not. -/
def exampleFarPair : SVCandidateSetReadPair :=
  examplePair (exampleRead "q" 1 51 true 1 2147483001 false 0) 0

/-- Example candidate: a deletion on chromosome 1 with a RIGHT_OPEN breakend at 100 and a
LEFT_OPEN breakend at 200. -/
def exampleDeletion : SVCandidate :=
  { bp1 := exampleBp 1 100 .RIGHT_OPEN, bp2 := exampleBp 1 200 .LEFT_OPEN, candidateIndex := 0 }

/-- Example stored pair spanning `exampleDeletion`: a forward read starting at 50 whose
reverse mate ends at 250. -/
def exampleSpanningPair : SVCandidateSetReadPair :=
  examplePair (exampleRead "q" 1 51 true 1 241 false 200) 0

/-- Example record of the reference scan: fragment `[50, 150)` on chromosome 0, which
overlaps a center at 100 by fifty bases. -/
def exampleRefRead : bam_record := exampleRead "q" 0 51 true 0 141 false 100

/-- Example `setReadEvidence`: marks the read as scanned and anchors it when its mapping
quality reaches `minMapQ`. -/
def exampleSetReadEvidence (minMapQ : Nat) (bamRead : bam_record)
    (_read : SVFragmentEvidenceRead) : SVFragmentEvidenceRead :=
  { isScanned := true, isAnchored := decide (minMapQ ≤ bamRead.map_qual),
    mapq := bamRead.map_qual }

/-- Example `isPairType`: evidence type 0 is the paired-read type. -/
def exampleIsPairType (evtype : Nat) : Bool := evtype == 0

/-- Example evidence structure without any fragment. -/
def emptyEvidence : SVEvidence := { normal := fun _ => none, tumor := fun _ => none }

/-- Example stored pair in which neither mate is observed. -/
def exampleUnobservedPair : SVCandidateSetReadPair :=
  { qname := "u", read1 := ⟨false, exampleRefRead⟩, read2 := ⟨false, exampleRefRead⟩,
    svLink := [⟨0, 0⟩] }

/-- Example stored pair linked to candidate 7 only. -/
def exampleOtherPair : SVCandidateSetReadPair :=
  { qname := "q", read1 := ⟨true, exampleRefRead⟩, read2 := ⟨false, exampleRefRead⟩,
    svLink := [⟨7, 0⟩] }

/-- Example scorer with one normal sample: fragment sizes in `[50, 500]`, the flat
distribution, minimal mapping quality 20. -/
def exampleScorer : SVScorer :=
  { _bamStreams := [oneRecordStream]
    _isAlignmentTumor := fun _ => false
    _readScanner :=
      { getMinMapQ := 20
        getEvidencePairRange := fun _ => { min := 50, max := 500 }
        getFragSizeDistro := fun _ => flatDistro } }

/-! # Verification -/

/-! ## getFragProb: the consistency check -/

theorem getFragProb_strict_of_qc (center_pos : known_pos_range2 → pos_t)
    (pairOpt : PairOptions) (sv : SVCandidate) (pair : SVCandidateSetReadPair)
    (fragDistro : SizeDistribution) (frag1 frag2 : SpanTerminal) (msg : MatchError)
    (hmatch : matchBpToFrag center_pos sv pair = .ok (frag1, frag2))
    (hqc : qcFragBpMatchup sv (center_pos sv.bp1.interval.range)
      (center_pos sv.bp2.interval.range) frag1 frag2 = some msg) :
    getFragProb center_pos pairOpt sv pair fragDistro true
      = .error (Failure.logicMatch msg) := by
  simp [getFragProb, hmatch, hqc]

theorem qcFragBpMatchup_chrom (sv : SVCandidate) (bp1pos bp2pos : pos_t)
    (frag1 frag2 : SpanTerminal) (hdiff : frag1.tid ≠ frag2.tid)
    (hmis : frag1.tid ≠ sv.bp1.interval.tid ∨ frag2.tid ≠ sv.bp2.interval.tid) :
    qcFragBpMatchup sv bp1pos bp2pos frag1 frag2 = some MatchError.chromBp1 ∨
      qcFragBpMatchup sv bp1pos bp2pos frag1 frag2 = some MatchError.chromBp2 := by
  unfold qcFragBpMatchup
  rw [if_pos hdiff]
  by_cases h2 : frag2.tid ≠ sv.bp2.interval.tid
  · right; rw [if_pos h2]
  · left
    have h1 : frag1.tid ≠ sv.bp1.interval.tid := by tauto
    rw [if_neg h2, if_pos h1]

theorem qcFragBpMatchup_strand (sv : SVCandidate) (bp1pos bp2pos : pos_t)
    (frag1 frag2 : SpanTerminal) (hsame : frag1.tid = frag2.tid)
    (hdiff : frag1.isFwdStrand ≠ frag2.isFwdStrand)
    (hmis : frag1.isFwdStrand ≠ decide (sv.bp1.state = SVBreakendState.RIGHT_OPEN) ∨
      frag2.isFwdStrand ≠ decide (sv.bp2.state = SVBreakendState.RIGHT_OPEN)) :
    qcFragBpMatchup sv bp1pos bp2pos frag1 frag2 = some MatchError.strandBp1 ∨
      qcFragBpMatchup sv bp1pos bp2pos frag1 frag2 = some MatchError.strandBp2 := by
  unfold qcFragBpMatchup
  rw [if_neg (not_not.mpr hsame), if_pos hdiff]
  by_cases h2 : frag2.isFwdStrand ≠ decide (sv.bp2.state = SVBreakendState.RIGHT_OPEN)
  · right; rw [if_pos h2]
  · left
    have h1 : frag1.isFwdStrand ≠ decide (sv.bp1.state = SVBreakendState.RIGHT_OPEN) := by
      tauto
    rw [if_neg h2, if_pos h1]

/-- C1 (as stated, refuted): in strict mode, both terminals of the pair lie on chromosome 5
while both breakends lie on chromosome 3, so after the swap terminal 1 is on another
chromosome than bp1; the call raises nothing and returns supported with probability 1/2. -/
theorem getFragProb_strict_chrom_mismatch_not_raised :
    matchBpToFrag rangeCenter
        ⟨exampleBp 3 200 .LEFT_OPEN, exampleBp 3 100 .RIGHT_OPEN, 0⟩
        (examplePair (exampleRead "q" 5 51 true 5 241 false 200) 0)
      = .ok ({ tid := 5, pos := 250, isFwdStrand := false, readSize := 10 },
             { tid := 5, pos := 50, isFwdStrand := true, readSize := 10 }) ∧
    (5 : Int) ≠ (exampleBp 3 200 .LEFT_OPEN).interval.tid ∧
    getFragProb rangeCenter exampleOpt
        ⟨exampleBp 3 200 .LEFT_OPEN, exampleBp 3 100 .RIGHT_OPEN, 0⟩
        (examplePair (exampleRead "q" 5 51 true 5 241 false 200) 0) flatDistro true
      = .ok (true, 1 / 2) := by
  refine ⟨?_, by decide, ?_⟩
  · simp [matchBpToFrag, swapIfReversed, getFragInfo, getFragInfoRecord, getTerminal,
      isBpFragReversed,
      examplePair, exampleRead, exampleBp, rangeCenter, known_pos_range2.size]
  · simp [getFragProb, matchBpToFrag, swapIfReversed, getFragInfo, getFragInfoRecord, getTerminal,
      isBpFragReversed, qcFragBpMatchup, fragSize, wrapInt32, examplePair, exampleRead, exampleBp,
      rangeCenter, known_pos_range2.size, minFragProb, flatDistro, exampleOpt]
    norm_num

/-- C1 (amended): in strict mode, if after the disambiguation and swap the two terminals
lie on different chromosomes, and terminal 1 is not on the chromosome of bp1 or terminal 2
is not on the chromosome of bp2, then getFragProb raises the LogicException (with one of
the two chromosome messages). -/
theorem getFragProb_strict_chrom_mismatch (center_pos : known_pos_range2 → pos_t)
    (pairOpt : PairOptions) (sv : SVCandidate) (pair : SVCandidateSetReadPair)
    (fragDistro : SizeDistribution) (frag1 frag2 : SpanTerminal)
    (hmatch : matchBpToFrag center_pos sv pair = .ok (frag1, frag2))
    (hdiff : frag1.tid ≠ frag2.tid)
    (hmis : frag1.tid ≠ sv.bp1.interval.tid ∨ frag2.tid ≠ sv.bp2.interval.tid) :
    getFragProb center_pos pairOpt sv pair fragDistro true
        = .error (Failure.logicMatch MatchError.chromBp1) ∨
      getFragProb center_pos pairOpt sv pair fragDistro true
        = .error (Failure.logicMatch MatchError.chromBp2) := by
  rcases qcFragBpMatchup_chrom sv (center_pos sv.bp1.interval.range)
      (center_pos sv.bp2.interval.range) frag1 frag2 hdiff hmis with h | h
  · exact Or.inl
      (getFragProb_strict_of_qc center_pos pairOpt sv pair fragDistro frag1 frag2 _ hmatch h)
  · exact Or.inr
      (getFragProb_strict_of_qc center_pos pairOpt sv pair fragDistro frag1 frag2 _ hmatch h)

/-- Witness of C1 (amended): a forward read on chromosome 1 whose mate is on chromosome 2,
against a candidate with bp1 on chromosome 1 and bp2 on chromosome 3. -/
theorem getFragProb_strict_chrom_mismatch_witness :
    getFragProb rangeCenter exampleOpt
        ⟨exampleBp 1 100 .RIGHT_OPEN, exampleBp 3 200 .LEFT_OPEN, 0⟩
        (examplePair (exampleRead "q" 1 51 true 2 241 false 0) 0) flatDistro true
        = .error (Failure.logicMatch MatchError.chromBp1) ∨
      getFragProb rangeCenter exampleOpt
        ⟨exampleBp 1 100 .RIGHT_OPEN, exampleBp 3 200 .LEFT_OPEN, 0⟩
        (examplePair (exampleRead "q" 1 51 true 2 241 false 0) 0) flatDistro true
        = .error (Failure.logicMatch MatchError.chromBp2) :=
  getFragProb_strict_chrom_mismatch rangeCenter exampleOpt
    ⟨exampleBp 1 100 .RIGHT_OPEN, exampleBp 3 200 .LEFT_OPEN, 0⟩
    (examplePair (exampleRead "q" 1 51 true 2 241 false 0) 0) flatDistro
    { tid := 1, pos := 50, isFwdStrand := true, readSize := 10 }
    { tid := 2, pos := 250, isFwdStrand := false, readSize := 10 }
    (by simp [matchBpToFrag, swapIfReversed, getFragInfo, getFragInfoRecord, getTerminal,
      isBpFragReversed,
      examplePair, exampleRead, exampleBp, rangeCenter, known_pos_range2.size])
    (by decide) (by decide)

/-- C2 (as stated, refuted): in strict mode, terminal 1 (chromosome 1) and terminal 2
(chromosome 2) are both forward while bp2 is LEFT_OPEN, so the strand of terminal 2 does
not match bp2; the call raises nothing and returns supported with probability 1/2. -/
theorem getFragProb_strict_strand_mismatch_not_raised :
    matchBpToFrag rangeCenter
        ⟨exampleBp 1 100 .RIGHT_OPEN, exampleBp 2 200 .LEFT_OPEN, 0⟩
        (examplePair (exampleRead "q" 1 51 true 2 151 true 0) 0)
      = .ok ({ tid := 1, pos := 50, isFwdStrand := true, readSize := 10 },
             { tid := 2, pos := 150, isFwdStrand := true, readSize := 10 }) ∧
    true ≠ decide ((exampleBp 2 200 .LEFT_OPEN).state = SVBreakendState.RIGHT_OPEN) ∧
    getFragProb rangeCenter exampleOpt
        ⟨exampleBp 1 100 .RIGHT_OPEN, exampleBp 2 200 .LEFT_OPEN, 0⟩
        (examplePair (exampleRead "q" 1 51 true 2 151 true 0) 0) flatDistro true
      = .ok (true, 1 / 2) := by
  refine ⟨?_, by decide, ?_⟩
  · simp [matchBpToFrag, swapIfReversed, getFragInfo, getFragInfoRecord, getTerminal,
      isBpFragReversed,
      examplePair, exampleRead, exampleBp, rangeCenter, known_pos_range2.size]
  · simp [getFragProb, matchBpToFrag, swapIfReversed, getFragInfo, getFragInfoRecord, getTerminal,
      isBpFragReversed, qcFragBpMatchup, fragSize, wrapInt32, examplePair, exampleRead, exampleBp,
      rangeCenter, known_pos_range2.size, minFragProb, flatDistro, exampleOpt]
    norm_num

/-- C2 (amended): in strict mode, if after the disambiguation and swap the two terminals
lie on the same chromosome and on different strands, and the strand of terminal 1 does not
match the orientation of bp1 or the strand of terminal 2 does not match the orientation of
bp2 (forward if and only if RIGHT_OPEN), then getFragProb raises the LogicException (with
one of the two strand messages). -/
theorem getFragProb_strict_strand_mismatch (center_pos : known_pos_range2 → pos_t)
    (pairOpt : PairOptions) (sv : SVCandidate) (pair : SVCandidateSetReadPair)
    (fragDistro : SizeDistribution) (frag1 frag2 : SpanTerminal)
    (hmatch : matchBpToFrag center_pos sv pair = .ok (frag1, frag2))
    (hsame : frag1.tid = frag2.tid)
    (hdiff : frag1.isFwdStrand ≠ frag2.isFwdStrand)
    (hmis : frag1.isFwdStrand ≠ decide (sv.bp1.state = SVBreakendState.RIGHT_OPEN) ∨
      frag2.isFwdStrand ≠ decide (sv.bp2.state = SVBreakendState.RIGHT_OPEN)) :
    getFragProb center_pos pairOpt sv pair fragDistro true
        = .error (Failure.logicMatch MatchError.strandBp1) ∨
      getFragProb center_pos pairOpt sv pair fragDistro true
        = .error (Failure.logicMatch MatchError.strandBp2) := by
  rcases qcFragBpMatchup_strand sv (center_pos sv.bp1.interval.range)
      (center_pos sv.bp2.interval.range) frag1 frag2 hsame hdiff hmis with h | h
  · exact Or.inl
      (getFragProb_strict_of_qc center_pos pairOpt sv pair fragDistro frag1 frag2 _ hmatch h)
  · exact Or.inr
      (getFragProb_strict_of_qc center_pos pairOpt sv pair fragDistro frag1 frag2 _ hmatch h)

/-- Witness of C2 (amended): a forward read and its reverse mate on chromosome 1, against
a candidate on chromosome 1 whose two breakends are both RIGHT_OPEN. -/
theorem getFragProb_strict_strand_mismatch_witness :
    getFragProb rangeCenter exampleOpt
        ⟨exampleBp 1 100 .RIGHT_OPEN, exampleBp 1 200 .RIGHT_OPEN, 0⟩
        (examplePair (exampleRead "q" 1 51 true 1 241 false 200) 0) flatDistro true
        = .error (Failure.logicMatch MatchError.strandBp1) ∨
      getFragProb rangeCenter exampleOpt
        ⟨exampleBp 1 100 .RIGHT_OPEN, exampleBp 1 200 .RIGHT_OPEN, 0⟩
        (examplePair (exampleRead "q" 1 51 true 1 241 false 200) 0) flatDistro true
        = .error (Failure.logicMatch MatchError.strandBp2) :=
  getFragProb_strict_strand_mismatch rangeCenter exampleOpt
    ⟨exampleBp 1 100 .RIGHT_OPEN, exampleBp 1 200 .RIGHT_OPEN, 0⟩
    (examplePair (exampleRead "q" 1 51 true 1 241 false 200) 0) flatDistro
    { tid := 1, pos := 50, isFwdStrand := true, readSize := 10 }
    { tid := 1, pos := 250, isFwdStrand := false, readSize := 10 }
    (by simp [matchBpToFrag, swapIfReversed, getFragInfo, getFragInfoRecord, getTerminal,
      isBpFragReversed,
      examplePair, exampleRead, exampleBp, rangeCenter, known_pos_range2.size])
    (by decide) (by decide) (by decide)

/-! ## processBamProcList -/

/-- The calls made by processBamProcList: a record is forwarded to processor procIndex
during scan interval intervalIndex exactly when it is read in that interval and the index
map, read at the processor index, yields that interval index. -/
theorem processBamProcList_mem
    (intervalCompressor : List GenomeInterval → List GenomeInterval × List Nat)
    (outOfBounds : Nat → Nat) (bamList : List bam_streamer) (bamProcList : List bamProc)
    (call : processRecordCall) :
    call ∈ processBamProcList intervalCompressor outOfBounds bamList bamProcList ↔
      ∃ bamStream scanInterval,
        bamList[call.bamIndex]? = some bamStream ∧
        (intervalCompressor (requestedScanIntervals bamProcList call.bamIndex)).1[call.intervalIndex]?
          = some scanInterval ∧
        scanInterval.range.begin_pos < scanInterval.range.end_pos ∧
        call.bamRead ∈ bamStream scanInterval.tid scanInterval.range.begin_pos
          scanInterval.range.end_pos ∧
        call.procIndex < bamProcList.length ∧
        vectorRead (intervalCompressor (requestedScanIntervals bamProcList call.bamIndex)).2
          outOfBounds call.procIndex = call.intervalIndex := by
  obtain ⟨bamIndex, intervalIndex, procIndex, bamRead⟩ := call
  unfold processBamProcList
  simp only [List.mem_flatMap, List.mem_enum_iff_getElem?, Prod.exists]
  constructor
  · rintro ⟨i, bamStream, hi, k, scanInterval, hk, hmem⟩
    by_cases hempty : scanInterval.range.begin_pos ≥ scanInterval.range.end_pos
    · simp [hempty] at hmem
    · rw [if_neg hempty] at hmem
      simp only [List.mem_flatMap, List.mem_map, targetProcs, List.mem_filter, List.mem_range,
        decide_eq_true_eq] at hmem
      obtain ⟨r, hr, p, ⟨hp, hv⟩, hcall⟩ := hmem
      injection hcall with h1 h2 h3 h4
      subst h1 h2 h3 h4
      exact ⟨bamStream, scanInterval, hi, hk, not_le.mp hempty, hr, hp, hv⟩
  · rintro ⟨bamStream, scanInterval, hi, hk, hlt, hr, hp, hv⟩
    refine ⟨bamIndex, bamStream, hi, intervalIndex, scanInterval, hk, ?_⟩
    rw [if_neg (not_le.mpr hlt)]
    simp only [List.mem_flatMap, List.mem_map, targetProcs, List.mem_filter, List.mem_range,
      decide_eq_true_eq]
    exact ⟨bamRead, hr, procIndex, ⟨hp, hv⟩, rfl⟩


/-- When no processor requests an empty interval, the compressor receives the requests of
all processors in processor order. -/
theorem requestedScanIntervals_of_nonempty (bamProcList : List bamProc) (bamIndex : Nat)
    (hne : ∀ bpp ∈ bamProcList, ¬ (bpp.nextBamIndex bamIndex).range.size < 1) :
    requestedScanIntervals bamProcList bamIndex
      = bamProcList.map (fun bpp => bpp.nextBamIndex bamIndex) := by
  unfold requestedScanIntervals
  rw [List.filter_eq_self]
  intro interval hmem
  obtain ⟨bpp, hbpp, rfl⟩ := List.mem_map.mp hmem
  simpa using hne bpp hbpp

/-- When no processor requests an empty interval for the sample and the index map has one
entry per request, a record read in a scan interval is forwarded to a processor exactly
when the compressor mapped the request of that processor to that interval. -/
theorem processBamProcList_mem_of_nonempty
    (intervalCompressor : List GenomeInterval → List GenomeInterval × List Nat)
    (outOfBounds : Nat → Nat) (bamList : List bam_streamer) (bamProcList : List bamProc)
    (call : processRecordCall)
    (hne : ∀ bpp ∈ bamProcList, ¬ (bpp.nextBamIndex call.bamIndex).range.size < 1)
    (hlen : (intervalCompressor
        (bamProcList.map (fun bpp => bpp.nextBamIndex call.bamIndex))).2.length
      = bamProcList.length) :
    call ∈ processBamProcList intervalCompressor outOfBounds bamList bamProcList ↔
      ∃ bamStream scanInterval,
        bamList[call.bamIndex]? = some bamStream ∧
        (intervalCompressor
          (bamProcList.map (fun bpp => bpp.nextBamIndex call.bamIndex))).1[call.intervalIndex]?
          = some scanInterval ∧
        scanInterval.range.begin_pos < scanInterval.range.end_pos ∧
        call.bamRead ∈ bamStream scanInterval.tid scanInterval.range.begin_pos
          scanInterval.range.end_pos ∧
        (intervalCompressor
          (bamProcList.map (fun bpp => bpp.nextBamIndex call.bamIndex))).2[call.procIndex]?
          = some call.intervalIndex := by
  rw [processBamProcList_mem, requestedScanIntervals_of_nonempty bamProcList call.bamIndex hne]
  generalize intervalCompressor
    (bamProcList.map (fun bpp => bpp.nextBamIndex call.bamIndex)) = compressed at *
  constructor
  · rintro ⟨bamStream, scanInterval, hi, hk, hlt, hr, hp, hv⟩
    refine ⟨bamStream, scanInterval, hi, hk, hlt, hr, ?_⟩
    have hp2 : call.procIndex < compressed.2.length := by omega
    simp only [vectorRead, List.get?_eq_getElem?, List.getElem?_eq_getElem hp2] at hv
    rw [List.getElem?_eq_getElem hp2, hv]
  · rintro ⟨bamStream, scanInterval, hi, hk, hlt, hr, hv⟩
    have hp2 : call.procIndex < compressed.2.length := by
      by_contra hcon
      rw [List.getElem?_eq_none (not_lt.mp hcon)] at hv
      cases hv
    refine ⟨bamStream, scanInterval, hi, hk, hlt, hr, by omega, ?_⟩
    simp only [vectorRead, List.get?_eq_getElem?, hv]

/-- C3 (code at the failing input): two processors, the first requesting an empty interval
and the second the interval [10, 20); the compressor maps the single non-empty request to
covering interval 0. The record read in covering interval 0 is forwarded to processor 0,
whose request is empty, because the index map of the non-empty requests is read at the
processor index; processor 1 is read past the end of the map and receives the record only
if the value found there is 0. -/
theorem processBamProcList_empty_request_receives
    (intervalCompressor : List GenomeInterval → List GenomeInterval × List Nat)
    (outOfBounds : Nat → Nat)
    (hcompress : intervalCompressor [windowProc.nextBamIndex 0]
      = ([windowProc.nextBamIndex 0], [0])) :
    (emptyRequestProc.nextBamIndex 0).range.size = 0 ∧
    processBamProcList intervalCompressor outOfBounds [oneRecordStream]
        [emptyRequestProc, windowProc]
      = if outOfBounds 1 = 0 then
          [⟨0, 0, 0, exampleRead "q" 0 12 true 0 112 false 110⟩,
           ⟨0, 0, 1, exampleRead "q" 0 12 true 0 112 false 110⟩]
        else [⟨0, 0, 0, exampleRead "q" 0 12 true 0 112 false 110⟩] := by
  have hreq : requestedScanIntervals [emptyRequestProc, windowProc] 0
      = [windowProc.nextBamIndex 0] := by
    simp [requestedScanIntervals, emptyRequestProc, windowProc, known_pos_range2.size]
  refine ⟨by simp [emptyRequestProc, known_pos_range2.size], ?_⟩
  simp only [processBamProcList, List.enum_cons, List.enum_nil, List.enumFrom_cons,
    List.enumFrom_nil, List.flatMap_cons, List.flatMap_nil, hreq, hcompress, List.append_nil]
  simp [targetProcs, vectorRead, windowProc, oneRecordStream, List.range_succ,
    List.filter_cons]
  split_ifs <;> simp

/-- Witness of C3: the identity compressor satisfies the hypothesis, and the value read
past the end of the map is taken to be 7. -/
theorem processBamProcList_empty_request_receives_witness :
    (emptyRequestProc.nextBamIndex 0).range.size = 0 ∧
    processBamProcList identityCompressor (fun _ => 7) [oneRecordStream]
        [emptyRequestProc, windowProc]
      = [⟨0, 0, 0, exampleRead "q" 0 12 true 0 112 false 110⟩] :=
  processBamProcList_empty_request_receives identityCompressor (fun _ => 7)
    (by simp [identityCompressor, List.range_succ])

/-! ## getFragProb: exchange of the two breakends -/

theorem wrapInt32_of_range (x : Int) (h1 : -2147483648 ≤ x) (h2 : x < 2147483648) :
    wrapInt32 x = x := by
  unfold wrapInt32
  omega

theorem fragSize_eq_wrap (bppos : pos_t) (frag : SpanTerminal) :
    fragSize bppos frag = wrapInt32 (specHalfFragSize bppos frag) := by
  unfold fragSize specHalfFragSize wrapInt32 pos_t
  cases frag.isFwdStrand
  · simp
    omega
  · simp

theorem halfSizes_swap_of_qc (sv : SVCandidate) (p1 p2 : pos_t) (f1 f2 : SpanTerminal)
    (h : qcFragBpMatchup sv p1 p2 (swapIfReversed sv p1 p2 f1 f2).1
      (swapIfReversed sv p1 p2 f1 f2).2 = none)
    (h' : qcFragBpMatchup sv.swapBreakends p2 p1 (swapIfReversed sv.swapBreakends p2 p1 f1 f2).1
      (swapIfReversed sv.swapBreakends p2 p1 f1 f2).2 = none) :
    (specHalfFragSize p1 (swapIfReversed sv p1 p2 f1 f2).1
        = specHalfFragSize p1 (swapIfReversed sv.swapBreakends p2 p1 f1 f2).2 ∧
      specHalfFragSize p2 (swapIfReversed sv p1 p2 f1 f2).2
        = specHalfFragSize p2 (swapIfReversed sv.swapBreakends p2 p1 f1 f2).1) ∨
    (specHalfFragSize p1 (swapIfReversed sv p1 p2 f1 f2).1
        = specHalfFragSize p2 (swapIfReversed sv.swapBreakends p2 p1 f1 f2).1 ∧
      specHalfFragSize p2 (swapIfReversed sv p1 p2 f1 f2).2
        = specHalfFragSize p1 (swapIfReversed sv.swapBreakends p2 p1 f1 f2).2) := by
  by_cases hR : isBpFragReversed sv p1 p2 f1 f2 = true <;>
    by_cases hR' : isBpFragReversed sv.swapBreakends p2 p1 f1 f2 = true <;>
    simp only [swapIfReversed, hR, hR', if_true, if_false, Bool.false_eq_true] at h h' ⊢ <;>
    obtain ⟨⟨⟨tb1, r1⟩, st1⟩, ⟨⟨tb2, r2⟩, st2⟩, idx⟩ := sv <;>
    obtain ⟨t1, x1, s1, n1⟩ := f1 <;>
    obtain ⟨t2, x2, s2, n2⟩ := f2 <;>
    simp only [SVCandidate.swapBreakends, isBpFragReversed, qcFragBpMatchup, specHalfFragSize] at hR hR' h h' ⊢ <;>
    cases s1 <;> cases s2 <;> cases st1 <;> cases st2 <;>
    simp at hR hR' h h' ⊢
  all_goals unfold pos_t at *
  all_goals (split_ifs at h h' <;> first | omega | simp_all)

theorem matchBpToFrag_eq (center_pos : known_pos_range2 → pos_t) (sv : SVCandidate)
    (pair : SVCandidateSetReadPair) (read1 read2 : SpanReadInfo)
    (hinfo : getFragInfo pair = .ok (read1, read2)) :
    matchBpToFrag center_pos sv pair
      = .ok (swapIfReversed sv (center_pos sv.bp1.interval.range)
          (center_pos sv.bp2.interval.range) (getTerminal read1) (getTerminal read2)) := by
  simp [matchBpToFrag, hinfo]

theorem matchBpToFrag_error (center_pos : known_pos_range2 → pos_t) (sv : SVCandidate)
    (pair : SVCandidateSetReadPair) (e : Failure) (hinfo : getFragInfo pair = .error e) :
    matchBpToFrag center_pos sv pair = .error e := by
  simp [matchBpToFrag, hinfo]

theorem getFragProb_eq_size (center_pos : known_pos_range2 → pos_t) (pairOpt : PairOptions)
    (sv : SVCandidate) (pair : SVCandidateSetReadPair) (fragDistro : SizeDistribution)
    (isStrictMatch : Bool) :
    getFragProb center_pos pairOpt sv pair fragDistro isStrictMatch
      = match getFragProbSize center_pos pairOpt sv pair isStrictMatch with
        | .error e => .error e
        | .ok none => .ok (false, 0)
        | .ok (some size) =>
          .ok (decide (twoSidedProb fragDistro size ≥ minFragProb), twoSidedProb fragDistro size) := by
  unfold getFragProb getFragProbSize
  cases hm : matchBpToFrag center_pos sv pair with
  | error e => rfl
  | ok frags =>
    obtain ⟨frag1, frag2⟩ := frags
    dsimp only
    cases hq : qcFragBpMatchup sv (center_pos sv.bp1.interval.range)
        (center_pos sv.bp2.interval.range) frag1 frag2 with
    | some msg => cases isStrictMatch <;> simp
    | none =>
      dsimp only
      split_ifs <;> simp [twoSidedProb]

theorem getFragProbSize_swap (center_pos : known_pos_range2 → pos_t) (pairOpt : PairOptions)
    (sv : SVCandidate) (pair : SVCandidateSetReadPair) (isStrictMatch : Bool)
    (hagree : (fragBpMismatch center_pos sv pair).isSome
      = (fragBpMismatch center_pos sv.swapBreakends pair).isSome) :
    (getFragProbSize center_pos pairOpt sv pair isStrictMatch).toOption
      = (getFragProbSize center_pos pairOpt sv.swapBreakends pair isStrictMatch).toOption := by
  cases hinfo : getFragInfo pair with
  | error e =>
    simp [getFragProbSize, matchBpToFrag_error center_pos _ pair e hinfo]
  | ok reads =>
    obtain ⟨read1, read2⟩ := reads
    have hm := matchBpToFrag_eq center_pos sv pair read1 read2 hinfo
    have hm' := matchBpToFrag_eq center_pos sv.swapBreakends pair read1 read2 hinfo
    have hb1 : sv.swapBreakends.bp1 = sv.bp2 := rfl
    have hb2 : sv.swapBreakends.bp2 = sv.bp1 := rfl
    rw [hb1, hb2] at hm'
    simp only [fragBpMismatch, hm, hm', hb1, hb2] at hagree
    simp only [getFragProbSize, hm, hm', hb1, hb2, fragSize_eq_wrap]
    generalize center_pos sv.bp1.interval.range = p1 at *
    generalize center_pos sv.bp2.interval.range = p2 at *
    generalize getTerminal read1 = f1 at *
    generalize getTerminal read2 = f2 at *
    have key := halfSizes_swap_of_qc sv p1 p2 f1 f2
    cases hq : qcFragBpMatchup sv p1 p2 (swapIfReversed sv p1 p2 f1 f2).1
        (swapIfReversed sv p1 p2 f1 f2).2 with
    | some msg =>
      cases hq' : qcFragBpMatchup sv.swapBreakends p2 p1
          (swapIfReversed sv.swapBreakends p2 p1 f1 f2).1
          (swapIfReversed sv.swapBreakends p2 p1 f1 f2).2 with
      | some msg' => cases isStrictMatch <;> simp [Except.toOption]
      | none => simp [hq, hq'] at hagree
    | none =>
      cases hq' : qcFragBpMatchup sv.swapBreakends p2 p1
          (swapIfReversed sv.swapBreakends p2 p1 f1 f2).1
          (swapIfReversed sv.swapBreakends p2 p1 f1 f2).2 with
      | some msg' => simp [hq, hq'] at hagree
      | none =>
        have hk := key hq hq'
        dsimp only
        rcases hk with ⟨h1, h2⟩ | ⟨h1, h2⟩
        · rw [h1, h2]
          simp only [add_comm (wrapInt32 (specHalfFragSize p2 _)), and_comm, or_comm]
          split_ifs <;> simp_all [Except.toOption]
        · rw [h1, h2]

theorem qcVerdict_unmatched (sv : SVCandidate) (p1 p2 : pos_t) (f1 f2 : SpanTerminal)
    (hne : f1.tid ≠ f2.tid)
    (hn1 : ¬ (sv.bp1.interval.tid = f1.tid ∧ sv.bp2.interval.tid = f2.tid))
    (hn2 : ¬ (sv.bp1.interval.tid = f2.tid ∧ sv.bp2.interval.tid = f1.tid)) :
    (qcFragBpMatchup sv p1 p2 (swapIfReversed sv p1 p2 f1 f2).1
        (swapIfReversed sv p1 p2 f1 f2).2).isSome = true := by
  have key : ∀ g1 g2 : SpanTerminal, g1.tid ≠ g2.tid →
      (g1.tid ≠ sv.bp1.interval.tid ∨ g2.tid ≠ sv.bp2.interval.tid) →
      (qcFragBpMatchup sv p1 p2 g1 g2).isSome = true := by
    intro g1 g2 hd hm
    rcases qcFragBpMatchup_chrom sv p1 p2 g1 g2 hd hm with h | h <;> simp [h]
  unfold swapIfReversed
  split_ifs
  · refine key f2 f1 (Ne.symm hne) ?_
    by_contra hcon
    push_neg at hcon
    exact hn2 ⟨hcon.1.symm, hcon.2.symm⟩
  · refine key f1 f2 hne ?_
    by_contra hcon
    push_neg at hcon
    exact hn1 ⟨hcon.1.symm, hcon.2.symm⟩

theorem qcVerdict_swap (sv : SVCandidate) (p1 p2 : pos_t) (f1 f2 : SpanTerminal)
    (hin : specSwapSymmetricInput sv f1 f2) :
    (qcFragBpMatchup sv p1 p2 (swapIfReversed sv p1 p2 f1 f2).1
        (swapIfReversed sv p1 p2 f1 f2).2).isSome
      = (qcFragBpMatchup sv.swapBreakends p2 p1 (swapIfReversed sv.swapBreakends p2 p1 f1 f2).1
        (swapIfReversed sv.swapBreakends p2 p1 f1 f2).2).isSome := by
  by_cases hC : f1.tid ≠ f2.tid ∧
      ¬ (sv.bp1.interval.tid = f1.tid ∧ sv.bp2.interval.tid = f2.tid) ∧
      ¬ (sv.bp1.interval.tid = f2.tid ∧ sv.bp2.interval.tid = f1.tid)
  · obtain ⟨hne, hn1, hn2⟩ := hC
    rw [qcVerdict_unmatched sv p1 p2 f1 f2 hne hn1 hn2,
      qcVerdict_unmatched sv.swapBreakends p2 p1 f1 f2 hne (fun h => hn2 ⟨h.2, h.1⟩)
        (fun h => hn1 ⟨h.2, h.1⟩)]
  have hin : (f1.tid = f2.tid ∧ sv.bp1.interval.tid = f1.tid ∧ sv.bp2.interval.tid = f1.tid ∧
      f1.isFwdStrand ≠ f2.isFwdStrand) ∨
      ((specTerminalMatches f1 sv.bp1 ∧ specTerminalMatches f2 sv.bp2 ∨
          specTerminalMatches f1 sv.bp2 ∧ specTerminalMatches f2 sv.bp1) ∧
        ¬ (f1.tid ≠ f2.tid ∧ f1.isFwdStrand = f2.isFwdStrand)) := by
    rcases hin with h | h | h
    · exact Or.inl h
    · exact Or.inr h
    · exact absurd h hC
  clear hC
  obtain ⟨⟨⟨tb1, r1⟩, st1⟩, ⟨⟨tb2, r2⟩, st2⟩, idx⟩ := sv
  obtain ⟨t1, x1, s1, n1⟩ := f1
  obtain ⟨t2, x2, s2, n2⟩ := f2
  simp only [specTerminalMatches] at hin
  rcases hin with ⟨h1, h2, h3, h4⟩ | ⟨hc, hn⟩
  · subst h1 h2 h3
    cases s1 <;> cases s2 <;> cases st1 <;> cases st2 <;>
      simp [swapIfReversed, isBpFragReversed, qcFragBpMatchup, SVCandidate.swapBreakends] at h4 ⊢
  · rcases hc with ⟨⟨ha, hb⟩, ⟨hc, hd⟩⟩ | ⟨⟨ha, hb⟩, ⟨hc, hd⟩⟩
    · subst ha hc
      by_cases ht : t1 = t2
      · subst ht
        cases s1 <;> cases s2 <;> cases st1 <;> cases st2 <;> simp at hb hd <;>
          rcases lt_trichotomy x1 x2 with hx | hx | hx <;>
          rcases lt_trichotomy p1 p2 with hp | hp | hp <;>
          (try subst hx) <;> (try subst hp) <;>
          simp [swapIfReversed, isBpFragReversed, qcFragBpMatchup, SVCandidate.swapBreakends,
            lt_asymm, ne_of_lt, ne_of_gt, *]
      · have ht' : ¬ t2 = t1 := fun h => ht h.symm
        cases s1 <;> cases s2 <;> cases st1 <;> cases st2 <;> simp [ht] at hb hd hn <;>
          simp [swapIfReversed, isBpFragReversed, qcFragBpMatchup, SVCandidate.swapBreakends,
            ht, ht']
    · subst ha hc
      by_cases ht : t1 = t2
      · subst ht
        cases s1 <;> cases s2 <;> cases st1 <;> cases st2 <;> simp at hb hd <;>
          rcases lt_trichotomy x1 x2 with hx | hx | hx <;>
          rcases lt_trichotomy p1 p2 with hp | hp | hp <;>
          (try subst hx) <;> (try subst hp) <;>
          simp [swapIfReversed, isBpFragReversed, qcFragBpMatchup, SVCandidate.swapBreakends,
            lt_asymm, ne_of_lt, ne_of_gt, *]
      · have ht' : ¬ t2 = t1 := fun h => ht h.symm
        cases s1 <;> cases s2 <;> cases st1 <;> cases st2 <;> simp [ht] at hb hd hn <;>
          simp [swapIfReversed, isBpFragReversed, qcFragBpMatchup, SVCandidate.swapBreakends,
            ht, ht']


theorem getFragProbSize_of_range (center_pos : known_pos_range2 → pos_t)
    (pairOpt : PairOptions) (sv : SVCandidate) (pair : SVCandidateSetReadPair)
    (isStrictMatch : Bool) (frag1 frag2 : SpanTerminal)
    (hmatch : matchBpToFrag center_pos sv pair = .ok (frag1, frag2))
    (hqc : qcFragBpMatchup sv (center_pos sv.bp1.interval.range)
      (center_pos sv.bp2.interval.range) frag1 frag2 = none)
    (hr1 : -2147483648 ≤ specHalfFragSize (center_pos sv.bp1.interval.range) frag1 ∧
      specHalfFragSize (center_pos sv.bp1.interval.range) frag1 < 2147483648)
    (hr2 : -2147483648 ≤ specHalfFragSize (center_pos sv.bp2.interval.range) frag2 ∧
      specHalfFragSize (center_pos sv.bp2.interval.range) frag2 < 2147483648)
    (hsum : -2147483648 ≤ specHalfFragSize (center_pos sv.bp1.interval.range) frag1
        + specHalfFragSize (center_pos sv.bp2.interval.range) frag2 ∧
      specHalfFragSize (center_pos sv.bp1.interval.range) frag1
        + specHalfFragSize (center_pos sv.bp2.interval.range) frag2 < 2147483648) :
    getFragProbSize center_pos pairOpt sv pair isStrictMatch
      = if specHalfFragSize (center_pos sv.bp1.interval.range) frag1
            < pairOpt.minFragSupport then
          .ok none
        else if specHalfFragSize (center_pos sv.bp2.interval.range) frag2
            < pairOpt.minFragSupport then
          .ok none
        else .ok (some (specHalfFragSize (center_pos sv.bp1.interval.range) frag1
          + specHalfFragSize (center_pos sv.bp2.interval.range) frag2)) := by
  unfold getFragProbSize
  rw [hmatch]
  dsimp only
  rw [hqc]
  dsimp only
  rw [fragSize_eq_wrap, fragSize_eq_wrap, wrapInt32_of_range _ hr1.1 hr1.2,
    wrapInt32_of_range _ hr2.1 hr2.2, wrapInt32_of_range _ hsum.1 hsum.2]

/-- C4 (as stated, refuted): two forward terminals at 50 and 60 on chromosome 0 against two
LEFT_OPEN breakends at 100 and 200 on chromosome 0. In strict mode the call raises the
position mismatch for the candidate, and returns supported with probability 1/2 (total
size 190) for the candidate with bp1 and bp2 exchanged. -/
theorem getFragProb_swap_asymmetric :
    getFragProb rangeCenter exampleOpt
        ⟨exampleBp 0 100 .LEFT_OPEN, exampleBp 0 200 .LEFT_OPEN, 0⟩
        (examplePair (exampleRead "q" 0 51 true 0 61 true 0) 0) flatDistro true
      = .error (Failure.logicMatch MatchError.positions) ∧
    getFragProb rangeCenter exampleOpt
        (SVCandidate.swapBreakends ⟨exampleBp 0 100 .LEFT_OPEN, exampleBp 0 200 .LEFT_OPEN, 0⟩)
        (examplePair (exampleRead "q" 0 51 true 0 61 true 0) 0) flatDistro true
      = .ok (true, 1 / 2) ∧
    getFragProbSize rangeCenter exampleOpt
        (SVCandidate.swapBreakends ⟨exampleBp 0 100 .LEFT_OPEN, exampleBp 0 200 .LEFT_OPEN, 0⟩)
        (examplePair (exampleRead "q" 0 51 true 0 61 true 0) 0) true
      = .ok (some 190) := by
  refine ⟨?_, ?_, ?_⟩
  · simp [getFragProb, matchBpToFrag, swapIfReversed, getFragInfo, getFragInfoRecord,
      getTerminal, isBpFragReversed, qcFragBpMatchup, examplePair, exampleRead, exampleBp,
      rangeCenter, known_pos_range2.size]
  · simp [getFragProb, matchBpToFrag, swapIfReversed, getFragInfo, getFragInfoRecord,
      getTerminal, isBpFragReversed, qcFragBpMatchup, fragSize, wrapInt32, examplePair,
      exampleRead, exampleBp, rangeCenter, known_pos_range2.size, minFragProb, flatDistro,
      exampleOpt, SVCandidate.swapBreakends]
    norm_num
  · simp [getFragProbSize, matchBpToFrag, swapIfReversed, getFragInfo, getFragInfoRecord,
      getTerminal, isBpFragReversed, qcFragBpMatchup, fragSize, wrapInt32, examplePair,
      exampleRead, exampleBp, rangeCenter, known_pos_range2.size, exampleOpt,
      SVCandidate.swapBreakends]

/-- A read pair that matches an inter-chromosomal candidate with both terminals forward:
terminals at 100 on chromosome 2 and at 50 on chromosome 1, RIGHT_OPEN breakends at 200 on
chromosome 2 and at 1000 on chromosome 1. The position rule of the disambiguation compares
positions across the two chromosomes and swaps the terminals, so the strict call raises the
chromosome mismatch for the candidate, while for the candidate with bp1 and bp2 exchanged
it returns supported with probability 1/2 (total size 1050). -/
theorem getFragProb_interchromosomal_same_strand :
    specTerminalMatches { tid := 2, pos := 100, isFwdStrand := true, readSize := 10 }
      (exampleBp 2 200 .RIGHT_OPEN) ∧
    specTerminalMatches { tid := 1, pos := 50, isFwdStrand := true, readSize := 10 }
      (exampleBp 1 1000 .RIGHT_OPEN) ∧
    getFragProb rangeCenter exampleOpt
        ⟨exampleBp 2 200 .RIGHT_OPEN, exampleBp 1 1000 .RIGHT_OPEN, 0⟩
        (examplePair (exampleRead "q" 2 101 true 1 51 true 0) 0) flatDistro true
      = .error (Failure.logicMatch MatchError.chromBp2) ∧
    getFragProb rangeCenter exampleOpt
        (SVCandidate.swapBreakends
          ⟨exampleBp 2 200 .RIGHT_OPEN, exampleBp 1 1000 .RIGHT_OPEN, 0⟩)
        (examplePair (exampleRead "q" 2 101 true 1 51 true 0) 0) flatDistro true
      = .ok (true, 1 / 2) ∧
    getFragProbSize rangeCenter exampleOpt
        (SVCandidate.swapBreakends
          ⟨exampleBp 2 200 .RIGHT_OPEN, exampleBp 1 1000 .RIGHT_OPEN, 0⟩)
        (examplePair (exampleRead "q" 2 101 true 1 51 true 0) 0) true
      = .ok (some 1050) := by
  refine ⟨?_, ?_, ?_, ?_, ?_⟩
  · simp [specTerminalMatches, exampleBp]
  · simp [specTerminalMatches, exampleBp]
  · simp [getFragProb, matchBpToFrag, swapIfReversed, getFragInfo, getFragInfoRecord,
      getTerminal, isBpFragReversed, qcFragBpMatchup, examplePair, exampleRead, exampleBp,
      rangeCenter, known_pos_range2.size]
  · simp [getFragProb, matchBpToFrag, swapIfReversed, getFragInfo, getFragInfoRecord,
      getTerminal, isBpFragReversed, qcFragBpMatchup, fragSize, wrapInt32, examplePair,
      exampleRead, exampleBp, rangeCenter, known_pos_range2.size, minFragProb, flatDistro,
      exampleOpt, SVCandidate.swapBreakends]
    norm_num
  · simp [getFragProbSize, matchBpToFrag, swapIfReversed, getFragInfo, getFragInfoRecord,
      getTerminal, isBpFragReversed, qcFragBpMatchup, fragSize, wrapInt32, examplePair,
      exampleRead, exampleBp, rangeCenter, known_pos_range2.size, exampleOpt,
      SVCandidate.swapBreakends]

/-- C4 (amended): for every size distribution and strictness flag, and every read pair and
candidate such that (a) both terminals and both breakends lie on one chromosome and the
terminals are on opposite strands, or (b) the pair matches the candidate (the two
terminals can be assigned to the two breakends so that each terminal lies on the
chromosome of its breakend and is forward exactly when that breakend is RIGHT_OPEN) and
the terminals are not on different chromosomes with the same strand, or (c) the terminals
lie on different chromosomes and the breakends do not lie one on each of these two
chromosomes: the outcome of getFragProb is the same for the candidate and for the
candidate with bp1 and bp2 exchanged. Both raise the fatal error, or both return the same
supported flag and probability; and the total implied fragment size passed to the CDF is
the same. (The value none of toOption stands for the fatal error; a pair without an
observed mate fails the assertion for both.) -/
theorem getFragProb_swap_symmetry (center_pos : known_pos_range2 → pos_t)
    (pairOpt : PairOptions) (sv : SVCandidate) (pair : SVCandidateSetReadPair)
    (fragDistro : SizeDistribution) (isStrictMatch : Bool)
    (hin : ∀ read1 read2, getFragInfo pair = .ok (read1, read2) →
      specSwapSymmetricInput sv (getTerminal read1) (getTerminal read2)) :
    (getFragProb center_pos pairOpt sv pair fragDistro isStrictMatch).toOption
      = (getFragProb center_pos pairOpt sv.swapBreakends pair fragDistro
          isStrictMatch).toOption ∧
    (getFragProbSize center_pos pairOpt sv pair isStrictMatch).toOption
      = (getFragProbSize center_pos pairOpt sv.swapBreakends pair isStrictMatch).toOption := by
  have hagree : (fragBpMismatch center_pos sv pair).isSome
      = (fragBpMismatch center_pos sv.swapBreakends pair).isSome := by
    cases hinfo : getFragInfo pair with
    | error e =>
      simp [fragBpMismatch, matchBpToFrag_error center_pos _ pair e hinfo]
    | ok reads =>
      obtain ⟨read1, read2⟩ := reads
      have hm := matchBpToFrag_eq center_pos sv pair read1 read2 hinfo
      have hm' := matchBpToFrag_eq center_pos sv.swapBreakends pair read1 read2 hinfo
      simp only [fragBpMismatch, hm, hm']
      exact qcVerdict_swap sv _ _ _ _ (hin read1 read2 hinfo)
  have hs := getFragProbSize_swap center_pos pairOpt sv pair isStrictMatch hagree
  refine ⟨?_, hs⟩
  rw [getFragProb_eq_size, getFragProb_eq_size]
  cases h1 : getFragProbSize center_pos pairOpt sv pair isStrictMatch with
  | error e =>
    cases h2 : getFragProbSize center_pos pairOpt sv.swapBreakends pair isStrictMatch with
    | error e2 => simp [Except.toOption]
    | ok o2 => simp [h1, h2, Except.toOption] at hs
  | ok o1 =>
    cases h2 : getFragProbSize center_pos pairOpt sv.swapBreakends pair isStrictMatch with
    | error e2 => simp [h1, h2, Except.toOption] at hs
    | ok o2 =>
      have ho : o1 = o2 := by simpa [h1, h2, Except.toOption] using hs
      subst ho
      rfl

/-- Witness of C4 (amended): a forward read at 50 on chromosome 1 whose reverse mate ends
at 250 on chromosome 2, against a LEFT_OPEN breakend at 200 on chromosome 2 (bp1) and a
RIGHT_OPEN breakend at 100 on chromosome 1 (bp2). The pair matches the candidate with
terminal 1 assigned to bp2, and the disambiguation swaps the terminals for this labelling
only. -/
theorem getFragProb_swap_symmetry_witness :
    (getFragProb rangeCenter exampleOpt
        ⟨exampleBp 2 200 .LEFT_OPEN, exampleBp 1 100 .RIGHT_OPEN, 0⟩
        (examplePair (exampleRead "q" 1 51 true 2 241 false 0) 0) flatDistro
        true).toOption
      = (getFragProb rangeCenter exampleOpt
          (SVCandidate.swapBreakends
            ⟨exampleBp 2 200 .LEFT_OPEN, exampleBp 1 100 .RIGHT_OPEN, 0⟩)
          (examplePair (exampleRead "q" 1 51 true 2 241 false 0) 0) flatDistro
          true).toOption ∧
    (getFragProbSize rangeCenter exampleOpt
        ⟨exampleBp 2 200 .LEFT_OPEN, exampleBp 1 100 .RIGHT_OPEN, 0⟩
        (examplePair (exampleRead "q" 1 51 true 2 241 false 0) 0) true).toOption
      = (getFragProbSize rangeCenter exampleOpt
          (SVCandidate.swapBreakends
            ⟨exampleBp 2 200 .LEFT_OPEN, exampleBp 1 100 .RIGHT_OPEN, 0⟩)
          (examplePair (exampleRead "q" 1 51 true 2 241 false 0) 0) true).toOption :=
  getFragProb_swap_symmetry rangeCenter exampleOpt
    ⟨exampleBp 2 200 .LEFT_OPEN, exampleBp 1 100 .RIGHT_OPEN, 0⟩
    (examplePair (exampleRead "q" 1 51 true 2 241 false 0) 0) flatDistro true
    (by
      intro read1 read2 hinfo
      simp [getFragInfo, getFragInfoRecord, examplePair, exampleRead] at hinfo
      obtain ⟨h1, h2⟩ := hinfo
      subst h1 h2
      simp [specSwapSymmetricInput, specTerminalMatches, getTerminal, exampleBp])

/-! ## Evidence writes: probabilities, reference scan and reconciler -/

theorem twoSidedProb_le_half (fragDistro : SizeDistribution) (size : Int) :
    twoSidedProb fragDistro size ≤ 1 / 2 := by
  unfold twoSidedProb
  rcases le_total (fragDistro.cdf size) (1 / 2) with h | h
  · exact le_trans (min_le_left _ _) h
  · exact le_trans (min_le_right _ _) (by linarith)

theorem twoSidedProb_nonneg (fragDistro : SizeDistribution) (size : Int)
    (h0 : 0 ≤ fragDistro.cdf size) (h1 : fragDistro.cdf size ≤ 1) :
    0 ≤ twoSidedProb fragDistro size := by
  unfold twoSidedProb
  exact le_min h0 (by linarith)

theorem getSample_setSample (evidence : SVEvidence) (isTumor : Bool)
    (track : evidenceTrack_t) :
    (evidence.setSample isTumor track).getSample isTumor = track := by
  cases isTumor <;> rfl

theorem getSample_setSample_ne (evidence : SVEvidence) (isTumor other : Bool)
    (track : evidenceTrack_t) (hne : other ≠ isTumor) :
    (evidence.setSample isTumor track).getSample other = evidence.getSample other := by
  cases isTumor <;> cases other <;> first | rfl | exact absurd rfl hne

theorem subscript_assign (track : evidenceTrack_t) (qname : String)
    (fragment : SVFragmentEvidence) :
    (track.assign qname fragment).subscript qname = fragment := by
  simp [evidenceTrack_t.assign, evidenceTrack_t.subscript]

theorem subscript_assign_ne (track : evidenceTrack_t) (qname other : String)
    (fragment : SVFragmentEvidence) (hne : other ≠ qname) :
    (track.assign qname fragment).subscript other = track.subscript other := by
  simp [evidenceTrack_t.assign, evidenceTrack_t.subscript, hne]

theorem getFragInfo_ok_of_isSet (pair : SVCandidateSetReadPair)
    (hset : pair.read1.isSet = true ∨ pair.read2.isSet = true) :
    ∃ reads, getFragInfo pair = .ok reads := by
  unfold getFragInfo
  by_cases h1 : pair.read1.isSet = true
  · by_cases h2 : pair.read2.isSet = true
    · simp [h1, h2]
    · simp [h1, h2]
  · have h2 : pair.read2.isSet = true := by tauto
    simp [h1, h2]

theorem getFragInfo_isSet_of_ok (pair : SVCandidateSetReadPair) (reads : SpanReadInfo × SpanReadInfo)
    (hok : getFragInfo pair = .ok reads) :
    pair.read1.isSet = true ∨ pair.read2.isSet = true := by
  by_contra hcon
  push_neg at hcon
  simp [getFragInfo, hcon.1, hcon.2] at hok

/-- C7: in non-strict mode, for every candidate, size distribution and read pair with at
least one mate observed, getFragProb returns a result (it raises no error); and whenever
the strict-mode call on the same inputs raises the mismatch LogicException, the non-strict
call returns supported = false with probability 0. -/
theorem getFragProb_nonstrict_no_error (center_pos : known_pos_range2 → pos_t)
    (pairOpt : PairOptions) (sv : SVCandidate) (pair : SVCandidateSetReadPair)
    (fragDistro : SizeDistribution)
    (hset : pair.read1.isSet = true ∨ pair.read2.isSet = true) :
    (∃ result, getFragProb center_pos pairOpt sv pair fragDistro false = .ok result) ∧
    (∀ msg, getFragProb center_pos pairOpt sv pair fragDistro true
          = .error (Failure.logicMatch msg) →
        getFragProb center_pos pairOpt sv pair fragDistro false = .ok (false, 0)) := by
  obtain ⟨reads, hinfo⟩ := getFragInfo_ok_of_isSet pair hset
  obtain ⟨read1, read2⟩ := reads
  have hm := matchBpToFrag_eq center_pos sv pair read1 read2 hinfo
  unfold getFragProb
  rw [hm]
  dsimp only
  cases hq : qcFragBpMatchup sv (center_pos sv.bp1.interval.range)
      (center_pos sv.bp2.interval.range)
      (swapIfReversed sv (center_pos sv.bp1.interval.range)
        (center_pos sv.bp2.interval.range) (getTerminal read1) (getTerminal read2)).1
      (swapIfReversed sv (center_pos sv.bp1.interval.range)
        (center_pos sv.bp2.interval.range) (getTerminal read1) (getTerminal read2)).2 with
  | some m => simp
  | none =>
    dsimp only
    split_ifs <;> simp

/-- Witness of C7: a pair with its first mate observed, on chromosomes 1 and 2, against a
candidate with bp2 on chromosome 3. -/
theorem getFragProb_nonstrict_no_error_witness :
    (∃ result, getFragProb rangeCenter exampleOpt
        ⟨exampleBp 1 100 .RIGHT_OPEN, exampleBp 3 200 .LEFT_OPEN, 0⟩
        (examplePair (exampleRead "q" 1 51 true 2 241 false 0) 0) flatDistro false
        = .ok result) ∧
    (∀ msg, getFragProb rangeCenter exampleOpt
          ⟨exampleBp 1 100 .RIGHT_OPEN, exampleBp 3 200 .LEFT_OPEN, 0⟩
          (examplePair (exampleRead "q" 1 51 true 2 241 false 0) 0) flatDistro true
          = .error (Failure.logicMatch msg) →
        getFragProb rangeCenter exampleOpt
          ⟨exampleBp 1 100 .RIGHT_OPEN, exampleBp 3 200 .LEFT_OPEN, 0⟩
          (examplePair (exampleRead "q" 1 51 true 2 241 false 0) 0) flatDistro false
          = .ok (false, 0)) :=
  getFragProb_nonstrict_no_error rangeCenter exampleOpt
    ⟨exampleBp 1 100 .RIGHT_OPEN, exampleBp 3 200 .LEFT_OPEN, 0⟩
    (examplePair (exampleRead "q" 1 51 true 2 241 false 0) 0) flatDistro (Or.inl rfl)

/-- C6 (as stated, refuted). First, the spanning pair against the deletion under a CDF
equal to the single-precision value of 0.0001, which is 13743895 / 2^37: the call returns
supported although the two-sided probability is below 0.0001. Second, a pair whose half
sizes 2147482950 and 2147482910 pass the consistency check and reach minFragSupport: the
sum 4294965860 has a two-sided probability of 1/2 under the sign distribution, but the
32-bit sum passed to the CDF is -1436 and the call returns not-supported. -/
theorem getFragProb_supported_iff_fails :
    (getFragProb rangeCenter exampleOpt exampleDeletion exampleSpanningPair thresholdDistro
        true = .ok (true, 13743895 / 137438953472) ∧
      twoSidedProb thresholdDistro 100 < 1 / 10000) ∧
    (getFragProb rangeCenter exampleOpt exampleFarCandidate exampleFarPair signDistro true
        = .ok (false, 0) ∧
      getFragProbSize rangeCenter exampleOpt exampleFarCandidate exampleFarPair true
        = .ok (some (-1436)) ∧
      twoSidedProb signDistro (2147482950 + 2147482910) ≥ 1 / 10000) := by
  refine ⟨⟨?_, ?_⟩, ?_, ?_, ?_⟩
  · simp [getFragProb, matchBpToFrag, swapIfReversed, getFragInfo, getFragInfoRecord,
      getTerminal, isBpFragReversed, qcFragBpMatchup, fragSize, wrapInt32,
      exampleSpanningPair, exampleDeletion, examplePair, exampleRead, exampleBp, rangeCenter,
      known_pos_range2.size, minFragProb, thresholdDistro, exampleOpt]
    norm_num
  · simp only [twoSidedProb, thresholdDistro]
    norm_num
  · simp [getFragProb, matchBpToFrag, swapIfReversed, getFragInfo, getFragInfoRecord,
      getTerminal, isBpFragReversed, qcFragBpMatchup, fragSize, wrapInt32,
      exampleFarPair, exampleFarCandidate, examplePair, exampleRead, exampleBp, rangeCenter,
      known_pos_range2.size, minFragProb, signDistro, exampleOpt]
  · simp [getFragProbSize, matchBpToFrag, swapIfReversed, getFragInfo, getFragInfoRecord,
      getTerminal, isBpFragReversed, qcFragBpMatchup, fragSize, wrapInt32,
      exampleFarPair, exampleFarCandidate, examplePair, exampleRead, exampleBp, rangeCenter,
      known_pos_range2.size, exampleOpt]
  · simp only [twoSidedProb, signDistro]
    norm_num

/-- C6 (amended): for every call of getFragProb that passes the consistency check (the QC
leaves no message for the terminals after the swap), in which both half-fragment sizes are
at least minFragSupport and the two half-fragment sizes and their sum lie within the
32-bit signed range: the call returns the two-sided probability of the sum of the two
half-fragment sizes, and the returned supported flag is true if and only if that
probability is at least the single-precision constant 0.0001 of the code, which is
13743895 / 2^37; a two-sided probability of 0.00005 yields not-supported. -/
theorem getFragProb_supported_iff (center_pos : known_pos_range2 → pos_t)
    (pairOpt : PairOptions) (sv : SVCandidate) (pair : SVCandidateSetReadPair)
    (fragDistro : SizeDistribution) (isStrictMatch : Bool) (frag1 frag2 : SpanTerminal)
    (hmatch : matchBpToFrag center_pos sv pair = .ok (frag1, frag2))
    (hqc : qcFragBpMatchup sv (center_pos sv.bp1.interval.range)
      (center_pos sv.bp2.interval.range) frag1 frag2 = none)
    (h1 : pairOpt.minFragSupport
      ≤ specHalfFragSize (center_pos sv.bp1.interval.range) frag1)
    (h2 : pairOpt.minFragSupport
      ≤ specHalfFragSize (center_pos sv.bp2.interval.range) frag2)
    (hr1 : -2147483648 ≤ specHalfFragSize (center_pos sv.bp1.interval.range) frag1 ∧
      specHalfFragSize (center_pos sv.bp1.interval.range) frag1 < 2147483648)
    (hr2 : -2147483648 ≤ specHalfFragSize (center_pos sv.bp2.interval.range) frag2 ∧
      specHalfFragSize (center_pos sv.bp2.interval.range) frag2 < 2147483648)
    (hsum : -2147483648 ≤ specHalfFragSize (center_pos sv.bp1.interval.range) frag1
        + specHalfFragSize (center_pos sv.bp2.interval.range) frag2 ∧
      specHalfFragSize (center_pos sv.bp1.interval.range) frag1
        + specHalfFragSize (center_pos sv.bp2.interval.range) frag2 < 2147483648) :
    ∃ isFragSupportSV : Bool,
      getFragProb center_pos pairOpt sv pair fragDistro isStrictMatch
        = .ok (isFragSupportSV, twoSidedProb fragDistro
            (specHalfFragSize (center_pos sv.bp1.interval.range) frag1
              + specHalfFragSize (center_pos sv.bp2.interval.range) frag2)) ∧
      (isFragSupportSV = true ↔
        twoSidedProb fragDistro
          (specHalfFragSize (center_pos sv.bp1.interval.range) frag1
            + specHalfFragSize (center_pos sv.bp2.interval.range) frag2)
          ≥ 13743895 / 137438953472) ∧
      (twoSidedProb fragDistro
          (specHalfFragSize (center_pos sv.bp1.interval.range) frag1
            + specHalfFragSize (center_pos sv.bp2.interval.range) frag2) = 5 / 100000 →
        isFragSupportSV = false) := by
  refine ⟨decide (twoSidedProb fragDistro
      (specHalfFragSize (center_pos sv.bp1.interval.range) frag1
        + specHalfFragSize (center_pos sv.bp2.interval.range) frag2) ≥ minFragProb),
    ?_, ?_, ?_⟩
  · rw [getFragProb_eq_size,
      getFragProbSize_of_range center_pos pairOpt sv pair isStrictMatch frag1 frag2 hmatch
        hqc hr1 hr2 hsum,
      if_neg (not_lt.mpr h1), if_neg (not_lt.mpr h2)]
  · simp [minFragProb]
  · intro h
    rw [h]
    simp [minFragProb]
    norm_num

/-- Witness of C6 (amended): the spanning pair passes the QC against the deletion with
half sizes 50 and 50; under a CDF of 0.00005 the call returns not-supported with that
probability. -/
theorem getFragProb_supported_iff_witness :
    getFragProb rangeCenter exampleOpt exampleDeletion exampleSpanningPair tailDistro true
      = .ok (false, 5 / 100000) := by
  have hs1 : specHalfFragSize (rangeCenter exampleDeletion.bp1.interval.range)
      { tid := 1, pos := 50, isFwdStrand := true, readSize := 10 } = 50 := by
    simp [specHalfFragSize, exampleDeletion, exampleBp, rangeCenter, known_pos_range2.size]
  have hs2 : specHalfFragSize (rangeCenter exampleDeletion.bp2.interval.range)
      { tid := 1, pos := 250, isFwdStrand := false, readSize := 10 } = 50 := by
    simp [specHalfFragSize, exampleDeletion, exampleBp, rangeCenter, known_pos_range2.size]
  obtain ⟨isFragSupportSV, hres, _, hlow⟩ :=
    getFragProb_supported_iff rangeCenter exampleOpt exampleDeletion exampleSpanningPair
      tailDistro true
      { tid := 1, pos := 50, isFwdStrand := true, readSize := 10 }
      { tid := 1, pos := 250, isFwdStrand := false, readSize := 10 }
      (by simp [matchBpToFrag, swapIfReversed, getFragInfo, getFragInfoRecord, getTerminal,
        isBpFragReversed, exampleSpanningPair, exampleDeletion, examplePair, exampleRead,
        exampleBp, rangeCenter, known_pos_range2.size])
      (by simp [qcFragBpMatchup, exampleDeletion, exampleBp])
      (by rw [hs1]; simp [exampleOpt])
      (by rw [hs2]; simp [exampleOpt])
      (by rw [hs1]; decide)
      (by rw [hs2]; decide)
      (by rw [hs1, hs2]; decide)
  have hval : ∀ size, twoSidedProb tailDistro size = 5 / 100000 := by
    intro size
    simp only [twoSidedProb, tailDistro]
    norm_num
  rw [hval] at hres hlow
  rw [hres, hlow rfl]

theorem setPairReadEvidence_alt
    (setReadEvidence : Nat → bam_record → SVFragmentEvidenceRead → SVFragmentEvidenceRead)
    (minMapQ : Nat) (pair : SVCandidateSetReadPair) (fragment : SVFragmentEvidence) :
    (setPairReadEvidence setReadEvidence minMapQ pair fragment).alt = fragment.alt ∧
    (setPairReadEvidence setReadEvidence minMapQ pair fragment).ref = fragment.ref := by
  unfold setPairReadEvidence
  cases pair.read1.isSet <;> cases pair.read2.isSet <;> simp

theorem getFragProb_isSet_of_ok (center_pos : known_pos_range2 → pos_t)
    (pairOpt : PairOptions) (sv : SVCandidate) (pair : SVCandidateSetReadPair)
    (fragDistro : SizeDistribution) (isStrictMatch : Bool) (result : Bool × ℚ)
    (hok : getFragProb center_pos pairOpt sv pair fragDistro isStrictMatch = .ok result) :
    pair.read1.isSet = true ∨ pair.read2.isSet = true := by
  cases hinfo : getFragInfo pair with
  | error e =>
    simp [getFragProb, matchBpToFrag_error center_pos sv pair e hinfo] at hok
  | ok reads => exact getFragInfo_isSet_of_ok pair reads hinfo

theorem getFragProb_supported_size (center_pos : known_pos_range2 → pos_t)
    (pairOpt : PairOptions) (sv : SVCandidate) (pair : SVCandidateSetReadPair)
    (fragDistro : SizeDistribution) (isStrictMatch : Bool) (fragProb : ℚ)
    (hok : getFragProb center_pos pairOpt sv pair fragDistro isStrictMatch
      = .ok (true, fragProb)) :
    ∃ size, getFragProbSize center_pos pairOpt sv pair isStrictMatch = .ok (some size) ∧
      fragProb = twoSidedProb fragDistro size := by
  rw [getFragProb_eq_size] at hok
  cases hs : getFragProbSize center_pos pairOpt sv pair isStrictMatch with
  | error e => simp [hs] at hok
  | ok o =>
    cases o with
    | none => simp [hs] at hok
    | some size =>
      refine ⟨size, rfl, ?_⟩
      simp [hs] at hok
      exact hok.2.symm

/-- C10: in the pair loop of processExistingAltPairInfo, for every stored pair linked to
the candidate (the search of svLink finds the candidate index) for which getFragProb
returns supported with probability p > 0, the alternate-allele records of the fragment
for bp1 and bp2 both get support flag true and probability p, and the reference-allele
records of the fragment are left unchanged. -/
theorem processExistingAltPair_supported (center_pos : known_pos_range2 → pos_t)
    (isPairType : Nat → Bool)
    (setReadEvidence : Nat → bam_record → SVFragmentEvidenceRead → SVFragmentEvidenceRead)
    (pairOpt : PairOptions) (sv : SVCandidate) (minMapQ : Nat) (isTumor : Bool)
    (fragDistro : SizeDistribution) (evidence : SVEvidence) (pair : SVCandidateSetReadPair)
    (linkIndex : Nat) (link : SVPairAssociation) (fragProb : ℚ)
    (hlink : findLinkIndex sv.candidateIndex pair.svLink 0 = some linkIndex)
    (hget : pair.svLink[linkIndex]? = some link)
    (hprob : getFragProb center_pos pairOpt sv pair fragDistro (isPairType link.evtype)
      = .ok (true, fragProb))
    (hpos : 0 < fragProb) :
    ∃ evidence1, processExistingAltPair center_pos isPairType setReadEvidence pairOpt sv
        minMapQ isTumor fragDistro evidence pair = .ok evidence1 ∧
      ((evidence1.getSample isTumor).subscript pair.qname).alt.bp1
        = { isFragmentSupport := true, fragLengthProb := fragProb } ∧
      ((evidence1.getSample isTumor).subscript pair.qname).alt.bp2
        = { isFragmentSupport := true, fragLengthProb := fragProb } ∧
      ((evidence1.getSample isTumor).subscript pair.qname).ref
        = ((evidence.getSample isTumor).subscript pair.qname).ref := by
  have hset := getFragProb_isSet_of_ok center_pos pairOpt sv pair fragDistro _ _ hprob
  have hset2 : (pair.read1.isSet || pair.read2.isSet) = true := by
    rcases hset with h | h <;> simp [h]
  have hrun : processExistingAltPair center_pos isPairType setReadEvidence pairOpt sv
      minMapQ isTumor fragDistro evidence pair
      = .ok (evidence.setSample isTumor ((evidence.getSample isTumor).assign pair.qname
          (setAltFragSupport (setPairReadEvidence setReadEvidence minMapQ pair
            ((evidence.getSample isTumor).subscript pair.qname)) fragProb))) := by
    unfold processExistingAltPair
    simp only [hset2, not_true_eq_false, if_false, hlink, hget, hprob, Bool.not_true,
      Bool.false_eq_true, not_le.mpr hpos]
  refine ⟨_, hrun, ?_, ?_, ?_⟩
  · simp [getSample_setSample, subscript_assign, setAltFragSupport]
  · simp [getSample_setSample, subscript_assign, setAltFragSupport]
  · simp [getSample_setSample, subscript_assign, setAltFragSupport,
      (setPairReadEvidence_alt _ _ _ _).2]


/-- Witness of C10: the spanning pair, linked to candidate 0 by paired-read evidence,
supports the deletion with probability 1/2 under the flat distribution. -/
theorem processExistingAltPair_supported_witness :
    ∃ evidence1, processExistingAltPair rangeCenter exampleIsPairType exampleSetReadEvidence
        exampleOpt exampleDeletion 20 false flatDistro emptyEvidence exampleSpanningPair
        = .ok evidence1 ∧
      ((evidence1.getSample false).subscript exampleSpanningPair.qname).alt.bp1
        = { isFragmentSupport := true, fragLengthProb := 1 / 2 } ∧
      ((evidence1.getSample false).subscript exampleSpanningPair.qname).alt.bp2
        = { isFragmentSupport := true, fragLengthProb := 1 / 2 } ∧
      ((evidence1.getSample false).subscript exampleSpanningPair.qname).ref
        = ((emptyEvidence.getSample false).subscript exampleSpanningPair.qname).ref :=
  processExistingAltPair_supported rangeCenter exampleIsPairType exampleSetReadEvidence
    exampleOpt exampleDeletion 20 false flatDistro emptyEvidence exampleSpanningPair
    0 ⟨0, 0⟩ (1 / 2)
    (by simp [findLinkIndex, exampleSpanningPair, examplePair, exampleDeletion])
    (by simp [exampleSpanningPair, examplePair])
    (by
      simp [getFragProb, matchBpToFrag, swapIfReversed, getFragInfo, getFragInfoRecord,
        getTerminal, isBpFragReversed, qcFragBpMatchup, fragSize, wrapInt32, exampleSpanningPair,
        exampleDeletion, examplePair, exampleRead, exampleBp, rangeCenter,
        known_pos_range2.size, minFragProb, flatDistro, exampleOpt, exampleIsPairType]
      norm_num)
    (by norm_num)

theorem processExistingAltPair_alt_cases (center_pos : known_pos_range2 → pos_t)
    (isPairType : Nat → Bool)
    (setReadEvidence : Nat → bam_record → SVFragmentEvidenceRead → SVFragmentEvidenceRead)
    (pairOpt : PairOptions) (sv : SVCandidate) (minMapQ : Nat) (isTumor : Bool)
    (fragDistro : SizeDistribution) (evidence evidence1 : SVEvidence)
    (pair : SVCandidateSetReadPair)
    (hrun : processExistingAltPair center_pos isPairType setReadEvidence pairOpt sv minMapQ
      isTumor fragDistro evidence pair = .ok evidence1) (t : Bool) (q : String) :
    ((evidence1.getSample t).subscript q).alt = ((evidence.getSample t).subscript q).alt ∨
    ∃ isStrictMatch size,
      getFragProbSize center_pos pairOpt sv pair isStrictMatch = .ok (some size) ∧
      ((evidence1.getSample t).subscript q).alt
        = { bp1 := { isFragmentSupport := true,
                     fragLengthProb := twoSidedProb fragDistro size }
            bp2 := { isFragmentSupport := true,
                     fragLengthProb := twoSidedProb fragDistro size } } := by
  unfold processExistingAltPair at hrun
  by_cases hset : (pair.read1.isSet || pair.read2.isSet) = true
  swap
  · simp [hset] at hrun
  simp only [hset, not_true_eq_false, if_false] at hrun
  cases hlink : findLinkIndex sv.candidateIndex pair.svLink 0 with
  | none =>
    simp only [hlink] at hrun
    injection hrun with hrun
    subst hrun
    exact Or.inl rfl
  | some linkIndex =>
    simp only [hlink] at hrun
    cases hget : pair.svLink[linkIndex]? with
    | none => simp [hget] at hrun
    | some link =>
      simp only [hget] at hrun
      cases hprob : getFragProb center_pos pairOpt sv pair fragDistro
          (isPairType link.evtype) with
      | error e => simp [hprob] at hrun
      | ok result =>
        obtain ⟨isFragSupportSV, fragProb⟩ := result
        simp only [hprob] at hrun
        -- frame: an entry other than the one of the pair is untouched
        by_cases hsame : t = isTumor ∧ q = pair.qname
        swap
        · left
          have hframe : ∀ fragment : SVFragmentEvidence,
              (((evidence.setSample isTumor
                ((evidence.getSample isTumor).assign pair.qname fragment)).getSample t).subscript
                  q) = (evidence.getSample t).subscript q := by
            intro fragment
            by_cases ht : t = isTumor
            · subst ht
              have hq : q ≠ pair.qname := fun hq => hsame ⟨rfl, hq⟩
              rw [getSample_setSample, subscript_assign_ne _ _ _ _ hq]
            · rw [getSample_setSample_ne _ _ _ _ ht]
          split_ifs at hrun <;> injection hrun with hrun <;> subst hrun <;> rw [hframe]
        · obtain ⟨ht, hq⟩ := hsame
          subst ht
          subst hq
          cases isFragSupportSV with
          | false =>
            left
            rw [if_pos (by simp)] at hrun
            injection hrun with hrun
            subst hrun
            rw [getSample_setSample, subscript_assign, (setPairReadEvidence_alt _ _ _ _).1]
          | true =>
            rw [if_neg (by simp)] at hrun
            by_cases hle : fragProb ≤ 0
            · left
              rw [if_pos hle] at hrun
              injection hrun with hrun
              subst hrun
              rw [getSample_setSample, subscript_assign, (setPairReadEvidence_alt _ _ _ _).1]
            · right
              rw [if_neg hle] at hrun
              injection hrun with hrun
              subst hrun
              obtain ⟨size, hsize, hp⟩ := getFragProb_supported_size center_pos pairOpt sv
                pair fragDistro _ fragProb hprob
              refine ⟨_, size, hsize, ?_⟩
              rw [getSample_setSample, subscript_assign, hp]
              rfl

/-- C5: for every size distribution whose CDF takes values in [0, 1]: the probability
written by setAlleleFrag (reference allele) equals min(cdf(size), 1 - cdf(size)) and
lies in [0, 1/2]; and after one pass of the pair loop of processExistingAltPairInfo every
alternate-allele record of the evidence structure either is the record it was before, or
carries at bp1 and bp2 the probability min(cdf(s), 1 - cdf(s)) of the fragment size s
passed to the CDF by getFragProb, which lies in [0, 1/2]. -/
theorem fragLengthProb_two_sided (fragDistro : SizeDistribution)
    (hcdf : ∀ size, 0 ≤ fragDistro.cdf size ∧ fragDistro.cdf size ≤ 1) :
    (∀ (size : Int) (bp : SVFragmentEvidenceAlleleBreakend),
      (setAlleleFrag fragDistro size bp).fragLengthProb
        = min (fragDistro.cdf size) (1 - fragDistro.cdf size) ∧
      0 ≤ (setAlleleFrag fragDistro size bp).fragLengthProb ∧
      (setAlleleFrag fragDistro size bp).fragLengthProb ≤ 1 / 2) ∧
    (∀ (center_pos : known_pos_range2 → pos_t) (isPairType : Nat → Bool)
      (setReadEvidence : Nat → bam_record → SVFragmentEvidenceRead → SVFragmentEvidenceRead)
      (pairOpt : PairOptions) (sv : SVCandidate) (minMapQ : Nat) (isTumor : Bool)
      (evidence evidence1 : SVEvidence) (pair : SVCandidateSetReadPair),
      processExistingAltPair center_pos isPairType setReadEvidence pairOpt sv minMapQ
        isTumor fragDistro evidence pair = .ok evidence1 →
      ∀ (t : Bool) (q : String),
        ((evidence1.getSample t).subscript q).alt = ((evidence.getSample t).subscript q).alt ∨
        ∃ isStrictMatch size,
          getFragProbSize center_pos pairOpt sv pair isStrictMatch = .ok (some size) ∧
          ((evidence1.getSample t).subscript q).alt.bp1.fragLengthProb
            = min (fragDistro.cdf size) (1 - fragDistro.cdf size) ∧
          ((evidence1.getSample t).subscript q).alt.bp2.fragLengthProb
            = min (fragDistro.cdf size) (1 - fragDistro.cdf size) ∧
          0 ≤ min (fragDistro.cdf size) (1 - fragDistro.cdf size) ∧
          min (fragDistro.cdf size) (1 - fragDistro.cdf size) ≤ 1 / 2) := by
  constructor
  · intro size bp
    have h := hcdf size
    exact ⟨rfl, twoSidedProb_nonneg fragDistro size h.1 h.2,
      twoSidedProb_le_half fragDistro size⟩
  · intro center_pos isPairType setReadEvidence pairOpt sv minMapQ isTumor evidence
      evidence1 pair hrun t q
    rcases processExistingAltPair_alt_cases center_pos isPairType setReadEvidence pairOpt sv
      minMapQ isTumor fragDistro evidence evidence1 pair hrun t q with h | ⟨s, size, hs, h⟩
    · exact Or.inl h
    · right
      have hb := hcdf size
      refine ⟨s, size, hs, ?_, ?_, twoSidedProb_nonneg fragDistro size hb.1 hb.2,
        twoSidedProb_le_half fragDistro size⟩
      · rw [h]; rfl
      · rw [h]; rfl

/-- Witness of C5: the flat distribution has its CDF in [0, 1]; the probability written
by setAlleleFrag for size 100 is the two-sided value and lies in [0, 1/2]. -/
theorem fragLengthProb_two_sided_witness :
    (setAlleleFrag flatDistro 100 {}).fragLengthProb
        = min (flatDistro.cdf 100) (1 - flatDistro.cdf 100) ∧
      0 ≤ (setAlleleFrag flatDistro 100 {}).fragLengthProb ∧
      (setAlleleFrag flatDistro 100 {}).fragLengthProb ≤ 1 / 2 :=
  (fragLengthProb_two_sided flatDistro
    (by intro size; simp only [flatDistro]; norm_num)).1 100 {}


theorem refPairRecordFilter_eq (is_innie_pair : bam_record → Bool) (pairOpt : PairOptions)
    (centerPos minFrag maxFrag : pos_t) (bamRead : bam_record)
    (hfilter : bamRead.is_filter = false) (hdup : bamRead.is_dup = false)
    (hsecondary : bamRead.is_secondary = false) (hsupplement : bamRead.is_supplement = false)
    (hunmapped : bamRead.is_unmapped = false) (hmate : bamRead.is_mate_unmapped = false)
    (hinnie : is_innie_pair bamRead = true)
    (hmin : minFrag ≤ |bamRead.template_size|) (hmax : |bamRead.template_size| ≤ maxFrag) :
    refPairRecordFilter is_innie_pair pairOpt centerPos minFrag maxFrag bamRead
      = if pairOpt.minFragSupport ≤ specFragOverlap centerPos bamRead then
          .ok (some |bamRead.template_size|)
        else .ok none := by
  have habs : 0 ≤ |bamRead.template_size| := abs_nonneg _
  unfold refPairRecordFilter specFragOverlap
  simp only [hfilter, hdup, hsecondary, hsupplement, hunmapped, hmate, hinnie,
    Bool.false_eq_true, if_false, Bool.or_self, not_true_eq_false,
    not_lt.mpr hmin, not_lt.mpr hmax, gt_iff_lt]
  generalize |bamRead.template_size| = T at *
  unfold pos_t at *
  by_cases hlt : bamRead.pos < bamRead.mate_pos
  · have hminpos : min bamRead.pos bamRead.mate_pos = bamRead.pos := min_eq_left hlt.le
    simp only [hlt, decide_True, if_true, hminpos]
    rw [if_neg (by omega)]
    split_ifs <;> first | rfl | omega
  · have hminpos : min bamRead.pos bamRead.mate_pos = bamRead.mate_pos :=
      min_eq_right (not_lt.mp hlt)
    simp only [hlt, decide_False, Bool.false_eq_true, if_false, hminpos]
    rw [if_neg (by omega)]
    split_ifs <;> first | rfl | omega

/-- C8: in the record loop of the reference-support scan, for every record that passes
the flag, innie-orientation and template-size filters, the record is accepted (the
evidence update is reached, with the absolute template size) if and only if the overlap
min(center - fragBegin + 1, fragEnd - center) is at least minFragSupport, and is
rejected without error otherwise; an overlap of exactly minFragSupport - 1 is rejected
and one of exactly minFragSupport is accepted. -/
theorem refPairRecordFilter_accept_iff (is_innie_pair : bam_record → Bool)
    (pairOpt : PairOptions) (centerPos minFrag maxFrag : pos_t) (bamRead : bam_record)
    (hfilter : bamRead.is_filter = false) (hdup : bamRead.is_dup = false)
    (hsecondary : bamRead.is_secondary = false) (hsupplement : bamRead.is_supplement = false)
    (hunmapped : bamRead.is_unmapped = false) (hmate : bamRead.is_mate_unmapped = false)
    (hinnie : is_innie_pair bamRead = true)
    (hmin : minFrag ≤ |bamRead.template_size|) (hmax : |bamRead.template_size| ≤ maxFrag) :
    (refPairRecordFilter is_innie_pair pairOpt centerPos minFrag maxFrag bamRead
        = .ok (some |bamRead.template_size|) ↔
      specFragOverlap centerPos bamRead ≥ pairOpt.minFragSupport) ∧
    (refPairRecordFilter is_innie_pair pairOpt centerPos minFrag maxFrag bamRead = .ok none ↔
      ¬ specFragOverlap centerPos bamRead ≥ pairOpt.minFragSupport) ∧
    (specFragOverlap centerPos bamRead = pairOpt.minFragSupport - 1 →
      refPairRecordFilter is_innie_pair pairOpt centerPos minFrag maxFrag bamRead
        = .ok none) ∧
    (specFragOverlap centerPos bamRead = pairOpt.minFragSupport →
      refPairRecordFilter is_innie_pair pairOpt centerPos minFrag maxFrag bamRead
        = .ok (some |bamRead.template_size|)) := by
  have heq := refPairRecordFilter_eq is_innie_pair pairOpt centerPos minFrag maxFrag bamRead
    hfilter hdup hsecondary hsupplement hunmapped hmate hinnie hmin hmax
  rw [heq]
  refine ⟨?_, ?_, ?_, ?_⟩
  · by_cases h : pairOpt.minFragSupport ≤ specFragOverlap centerPos bamRead <;> simp [h]
  · by_cases h : pairOpt.minFragSupport ≤ specFragOverlap centerPos bamRead <;> simp [h]
  · intro h
    rw [if_neg (by rw [h]; unfold pos_t; omega)]
  · intro h
    rw [if_pos (by rw [h])]

/-- Witness of C8: the example record (fragment [50, 150), template size 100) against a
center at 100 with minFragSupport = 3 and size range [50, 500]. -/
theorem refPairRecordFilter_accept_iff_witness :
    (refPairRecordFilter (fun _ => true) { minFragSupport := 3 } 100 50 500 exampleRefRead
        = .ok (some |exampleRefRead.template_size|) ↔
      specFragOverlap 100 exampleRefRead ≥ 3) ∧
    (refPairRecordFilter (fun _ => true) { minFragSupport := 3 } 100 50 500 exampleRefRead
        = .ok none ↔
      ¬ specFragOverlap 100 exampleRefRead ≥ 3) ∧
    (specFragOverlap 100 exampleRefRead = 3 - 1 →
      refPairRecordFilter (fun _ => true) { minFragSupport := 3 } 100 50 500 exampleRefRead
        = .ok none) ∧
    (specFragOverlap 100 exampleRefRead = 3 →
      refPairRecordFilter (fun _ => true) { minFragSupport := 3 } 100 50 500 exampleRefRead
        = .ok (some |exampleRefRead.template_size|)) :=
  refPairRecordFilter_accept_iff (fun _ => true) { minFragSupport := 3 } 100 50 500
    exampleRefRead rfl rfl rfl rfl rfl rfl rfl
    (by simp [exampleRefRead, exampleRead]) (by simp [exampleRefRead, exampleRead])

theorem refPairRecordFilter_size (is_innie_pair : bam_record → Bool) (pairOpt : PairOptions)
    (centerPos minFrag maxFrag : pos_t) (bamRead : bam_record) (templateSize : Int)
    (hacc : refPairRecordFilter is_innie_pair pairOpt centerPos minFrag maxFrag bamRead
      = .ok (some templateSize)) :
    templateSize = |bamRead.template_size| := by
  unfold refPairRecordFilter at hacc
  by_cases h1 : bamRead.is_filter = true
  · rw [if_pos h1] at hacc; cases hacc
  rw [if_neg h1] at hacc
  by_cases h2 : bamRead.is_dup = true
  · rw [if_pos h2] at hacc; cases hacc
  rw [if_neg h2] at hacc
  by_cases h3 : bamRead.is_secondary = true
  · rw [if_pos h3] at hacc; cases hacc
  rw [if_neg h3] at hacc
  by_cases h4 : bamRead.is_supplement = true
  · rw [if_pos h4] at hacc; cases hacc
  rw [if_neg h4] at hacc
  by_cases h5 : (bamRead.is_unmapped || bamRead.is_mate_unmapped) = true
  · rw [if_pos h5] at hacc; cases hacc
  rw [if_neg h5] at hacc
  by_cases h6 : ¬ is_innie_pair bamRead = true
  · rw [if_pos h6] at hacc; cases hacc
  rw [if_neg h6] at hacc
  dsimp only at hacc
  by_cases h7 : |bamRead.template_size| < minFrag
  · rw [if_pos h7] at hacc; cases hacc
  rw [if_neg h7] at hacc
  by_cases h8 : |bamRead.template_size| > maxFrag
  · rw [if_pos h8] at hacc; cases hacc
  rw [if_neg h8] at hacc
  split_ifs at hacc <;> first | (cases hacc; done) | (cases hacc; rfl)

/-- C9: for every record accepted by the reference-support scan of a breakend, the
reference-allele record of the fragment for the queried breakend (bp1 when isBp1, else
bp2) gets support flag true and probability min(cdf(|templateSize|),
1 - cdf(|templateSize|)), while the reference-allele record for the other breakend and
the alternate-allele records for both breakends are left unchanged. -/
theorem getSVRefPairSupportRecord_accepted (is_innie_pair : bam_record → Bool)
    (setReadEvidence : Nat → bam_record → SVFragmentEvidenceRead → SVFragmentEvidenceRead)
    (pairOpt : PairOptions) (centerPos : pos_t) (minMapQ : Nat) (isTumor : Bool)
    (minFrag maxFrag : pos_t) (fragDistro : SizeDistribution) (isBp1 : Bool)
    (evidence : SVEvidence) (bamRead : bam_record) (templateSize : Int)
    (hacc : refPairRecordFilter is_innie_pair pairOpt centerPos minFrag maxFrag bamRead
      = .ok (some templateSize)) :
    ∃ evidence1, getSVRefPairSupportRecord is_innie_pair setReadEvidence pairOpt centerPos
        minMapQ isTumor minFrag maxFrag fragDistro isBp1 evidence bamRead = .ok evidence1 ∧
      (((evidence1.getSample isTumor).subscript bamRead.qname).ref.getBp isBp1)
        = { isFragmentSupport := true,
            fragLengthProb := min (fragDistro.cdf |bamRead.template_size|)
              (1 - fragDistro.cdf |bamRead.template_size|) } ∧
      (((evidence1.getSample isTumor).subscript bamRead.qname).ref.getBp (!isBp1))
        = (((evidence.getSample isTumor).subscript bamRead.qname).ref.getBp (!isBp1)) ∧
      ((evidence1.getSample isTumor).subscript bamRead.qname).alt
        = ((evidence.getSample isTumor).subscript bamRead.qname).alt := by
  have hsize := refPairRecordFilter_size is_innie_pair pairOpt centerPos minFrag maxFrag
    bamRead templateSize hacc
  subst hsize
  have hrun : getSVRefPairSupportRecord is_innie_pair setReadEvidence pairOpt centerPos
      minMapQ isTumor minFrag maxFrag fragDistro isBp1 evidence bamRead
      = .ok (refPairRecordUpdate setReadEvidence minMapQ isTumor fragDistro isBp1 bamRead
          |bamRead.template_size| evidence) := by
    unfold getSVRefPairSupportRecord
    rw [hacc]
  refine ⟨_, hrun, ?_, ?_, ?_⟩
  · unfold refPairRecordUpdate
    rw [getSample_setSample, subscript_assign]
    cases isBp1 <;> cases bamRead.is_first <;> rfl
  · unfold refPairRecordUpdate
    rw [getSample_setSample, subscript_assign]
    cases isBp1 <;> cases bamRead.is_first <;> rfl
  · unfold refPairRecordUpdate
    rw [getSample_setSample, subscript_assign]
    cases isBp1 <;> cases bamRead.is_first <;> rfl

/-- Witness of C9: the example record is accepted for bp1 in a normal sample with
minFragSupport = 3, starting from an evidence structure without fragments. -/
theorem getSVRefPairSupportRecord_accepted_witness :
    ∃ evidence1, getSVRefPairSupportRecord (fun _ => true) exampleSetReadEvidence
        { minFragSupport := 3 } 100 20 false 50 500 flatDistro true emptyEvidence
        exampleRefRead = .ok evidence1 ∧
      (((evidence1.getSample false).subscript exampleRefRead.qname).ref.getBp true)
        = { isFragmentSupport := true,
            fragLengthProb := min (flatDistro.cdf |exampleRefRead.template_size|)
              (1 - flatDistro.cdf |exampleRefRead.template_size|) } ∧
      (((evidence1.getSample false).subscript exampleRefRead.qname).ref.getBp (!true))
        = (((emptyEvidence.getSample false).subscript exampleRefRead.qname).ref.getBp
            (!true)) ∧
      ((evidence1.getSample false).subscript exampleRefRead.qname).alt
        = ((emptyEvidence.getSample false).subscript exampleRefRead.qname).alt :=
  getSVRefPairSupportRecord_accepted (fun _ => true) exampleSetReadEvidence
    { minFragSupport := 3 } 100 20 false 50 500 flatDistro true emptyEvidence
    exampleRefRead 100
    (by simp [refPairRecordFilter, exampleRefRead, exampleRead])

/-! ## Reconciler and reference scan: skipped pairs, rejected records, swap rule -/

theorem findLinkIndex_none (candidateIndex : Nat) (svLink : List SVPairAssociation)
    (start : Nat) (hno : ∀ sva ∈ svLink, sva.index ≠ candidateIndex) :
    findLinkIndex candidateIndex svLink start = none := by
  induction svLink generalizing start with
  | nil => rfl
  | cons sva rest ih =>
    unfold findLinkIndex
    have hhead : candidateIndex ≠ sva.index := fun h => hno sva (List.mem_cons_self _ _) h.symm
    rw [if_neg hhead]
    exact ih (start + 1) (fun x hx => hno x (List.mem_cons_of_mem _ hx))

/-- C11: in the pair loop of processExistingAltPairInfo, for every stored pair with at
least one mate observed whose association list does not contain the index of the
candidate, the pair is skipped and the evidence structure is unchanged by it (the result
is the evidence it started from: no fragment entry is created for the query name and an
existing entry keeps all its fields). -/
theorem processExistingAltPair_not_linked (center_pos : known_pos_range2 → pos_t)
    (isPairType : Nat → Bool)
    (setReadEvidence : Nat → bam_record → SVFragmentEvidenceRead → SVFragmentEvidenceRead)
    (pairOpt : PairOptions) (sv : SVCandidate) (minMapQ : Nat) (isTumor : Bool)
    (fragDistro : SizeDistribution) (evidence : SVEvidence) (pair : SVCandidateSetReadPair)
    (hset : pair.read1.isSet = true ∨ pair.read2.isSet = true)
    (hno : ∀ sva ∈ pair.svLink, sva.index ≠ sv.candidateIndex) :
    processExistingAltPair center_pos isPairType setReadEvidence pairOpt sv minMapQ isTumor
        fragDistro evidence pair = .ok evidence := by
  have hset2 : (pair.read1.isSet || pair.read2.isSet) = true := by
    rcases hset with h | h <;> simp [h]
  unfold processExistingAltPair
  simp only [hset2, not_true_eq_false, if_false,
    findLinkIndex_none sv.candidateIndex pair.svLink 0 hno]

/-- Witness of C11: a pair linked to candidate 7 only, reconciled for candidate 0. -/
theorem processExistingAltPair_not_linked_witness :
    processExistingAltPair rangeCenter exampleIsPairType exampleSetReadEvidence exampleOpt
        exampleDeletion 20 false flatDistro emptyEvidence exampleOtherPair
      = .ok emptyEvidence :=
  processExistingAltPair_not_linked rangeCenter exampleIsPairType exampleSetReadEvidence
    exampleOpt exampleDeletion 20 false flatDistro emptyEvidence exampleOtherPair
    (Or.inl rfl) (by simp [exampleOtherPair, exampleDeletion])

theorem processExistingAltPair_unobserved (center_pos : known_pos_range2 → pos_t)
    (isPairType : Nat → Bool)
    (setReadEvidence : Nat → bam_record → SVFragmentEvidenceRead → SVFragmentEvidenceRead)
    (pairOpt : PairOptions) (sv : SVCandidate) (minMapQ : Nat) (isTumor : Bool)
    (fragDistro : SizeDistribution) (evidence : SVEvidence) (pair : SVCandidateSetReadPair)
    (h1 : pair.read1.isSet = false) (h2 : pair.read2.isSet = false) :
    processExistingAltPair center_pos isPairType setReadEvidence pairOpt sv minMapQ isTumor
        fragDistro evidence pair = .error Failure.assertNoRead := by
  unfold processExistingAltPair
  simp [h1, h2]

theorem foldlM_error_of_mem {α : Type} (f : SVEvidence → α → Except Failure SVEvidence)
    (l : List α) (a : α) (ha : a ∈ l) (herr : ∀ e, ∃ x, f e a = .error x)
    (evidence : SVEvidence) : ∃ x, l.foldlM f evidence = .error x := by
  induction l generalizing evidence with
  | nil => cases ha
  | cons b rest ih =>
    rw [List.foldlM_cons]
    cases hstep : f evidence b with
    | error x => exact ⟨x, rfl⟩
    | ok e1 =>
      rcases List.mem_cons.mp ha with hab | hmem
      · subst hab
        obtain ⟨x, hx⟩ := herr evidence
        rw [hx] at hstep
        cases hstep
      · exact ih hmem e1

/-- C15: for every stored pair in which neither mate is observed, the pair loop of
processExistingAltPairInfo fails with the invariant violation (the failed assertion),
whatever the association list of the pair and the candidate are; and
processExistingAltPairInfo fails whenever the data group of one of its samples holds
such a pair (with that violation, or with an error raised by an earlier pair). -/
theorem processExistingAltPairInfo_unobserved (pair : SVCandidateSetReadPair)
    (h1 : pair.read1.isSet = false) (h2 : pair.read2.isSet = false) :
    (∀ (center_pos : known_pos_range2 → pos_t) (isPairType : Nat → Bool)
      (setReadEvidence : Nat → bam_record → SVFragmentEvidenceRead → SVFragmentEvidenceRead)
      (pairOpt : PairOptions) (sv : SVCandidate) (minMapQ : Nat) (isTumor : Bool)
      (fragDistro : SizeDistribution) (evidence : SVEvidence),
      processExistingAltPair center_pos isPairType setReadEvidence pairOpt sv minMapQ isTumor
        fragDistro evidence pair = .error Failure.assertNoRead) ∧
    (∀ (center_pos : known_pos_range2 → pos_t) (isPairType : Nat → Bool)
      (setReadEvidence : Nat → bam_record → SVFragmentEvidenceRead → SVFragmentEvidenceRead)
      (self : SVScorer) (pairOpt : PairOptions) (svData : Nat → List SVCandidateSetReadPair)
      (sv : SVCandidate) (evidence : SVEvidence) (bamIndex : Nat),
      bamIndex < self._bamStreams.length → pair ∈ svData bamIndex →
      ∃ x, processExistingAltPairInfo center_pos isPairType setReadEvidence self pairOpt
        svData sv evidence = .error x) := by
  constructor
  · intro center_pos isPairType setReadEvidence pairOpt sv minMapQ isTumor fragDistro evidence
    exact processExistingAltPair_unobserved center_pos isPairType setReadEvidence pairOpt sv
      minMapQ isTumor fragDistro evidence pair h1 h2
  · intro center_pos isPairType setReadEvidence self pairOpt svData sv evidence bamIndex
      hlt hmem
    unfold processExistingAltPairInfo
    apply foldlM_error_of_mem _ _ bamIndex (List.mem_range.mpr hlt)
    intro e
    apply foldlM_error_of_mem _ _ pair hmem
    intro e2
    exact ⟨_, processExistingAltPair_unobserved center_pos isPairType setReadEvidence pairOpt
      sv _ _ _ e2 pair h1 h2⟩

/-- Witness of C15: the example pair without observed mates, linked to candidate 0. -/
theorem processExistingAltPairInfo_unobserved_witness :
    processExistingAltPair rangeCenter exampleIsPairType exampleSetReadEvidence exampleOpt
        exampleDeletion 20 false flatDistro emptyEvidence exampleUnobservedPair
      = .error Failure.assertNoRead :=
  (processExistingAltPairInfo_unobserved exampleUnobservedPair rfl rfl).1 rangeCenter
    exampleIsPairType exampleSetReadEvidence exampleOpt exampleDeletion 20 false flatDistro
    emptyEvidence

/-- C14: in the record loop of the reference-support scan, every record that is filtered,
duplicate, secondary, supplementary, unmapped or mate-unmapped, or that is not an innie
pair, or whose absolute template size is below the minimum or above the maximum fragment
size of the sample, is rejected: the loop body returns the evidence structure it was
given. -/
theorem getSVRefPairSupportRecord_rejected (is_innie_pair : bam_record → Bool)
    (setReadEvidence : Nat → bam_record → SVFragmentEvidenceRead → SVFragmentEvidenceRead)
    (pairOpt : PairOptions) (centerPos : pos_t) (minMapQ : Nat) (isTumor : Bool)
    (minFrag maxFrag : pos_t) (fragDistro : SizeDistribution) (isBp1 : Bool)
    (evidence : SVEvidence) (bamRead : bam_record)
    (hrej : bamRead.is_filter = true ∨ bamRead.is_dup = true ∨ bamRead.is_secondary = true ∨
      bamRead.is_supplement = true ∨ bamRead.is_unmapped = true ∨
      bamRead.is_mate_unmapped = true ∨ is_innie_pair bamRead = false ∨
      |bamRead.template_size| < minFrag ∨ |bamRead.template_size| > maxFrag) :
    refPairRecordFilter is_innie_pair pairOpt centerPos minFrag maxFrag bamRead = .ok none ∧
    getSVRefPairSupportRecord is_innie_pair setReadEvidence pairOpt centerPos minMapQ
      isTumor minFrag maxFrag fragDistro isBp1 evidence bamRead = .ok evidence := by
  have hfilter : refPairRecordFilter is_innie_pair pairOpt centerPos minFrag maxFrag bamRead
      = .ok none := by
    unfold refPairRecordFilter
    by_cases c1 : bamRead.is_filter = true
    · rw [if_pos c1]
    rw [if_neg c1]
    by_cases c2 : bamRead.is_dup = true
    · rw [if_pos c2]
    rw [if_neg c2]
    by_cases c3 : bamRead.is_secondary = true
    · rw [if_pos c3]
    rw [if_neg c3]
    by_cases c4 : bamRead.is_supplement = true
    · rw [if_pos c4]
    rw [if_neg c4]
    by_cases c5 : (bamRead.is_unmapped || bamRead.is_mate_unmapped) = true
    · rw [if_pos c5]
    rw [if_neg c5]
    by_cases c6 : ¬ is_innie_pair bamRead = true
    · rw [if_pos c6]
    rw [if_neg c6]
    dsimp only
    by_cases c7 : |bamRead.template_size| < minFrag
    · rw [if_pos c7]
    rw [if_neg c7]
    by_cases c8 : |bamRead.template_size| > maxFrag
    · rw [if_pos c8]
    exfalso
    simp only [Bool.or_eq_true, not_or, Bool.not_eq_true] at c5
    rcases hrej with h | h | h | h | h | h | h | h | h
    · exact c1 h
    · exact c2 h
    · exact c3 h
    · exact c4 h
    · rw [c5.1] at h; cases h
    · rw [c5.2] at h; cases h
    · exact c6 (by rw [h]; simp)
    · exact c7 h
    · exact c8 h
  refine ⟨hfilter, ?_⟩
  unfold getSVRefPairSupportRecord
  rw [hfilter]

/-- Witness of C14: the example record marked as a duplicate. -/
theorem getSVRefPairSupportRecord_rejected_witness :
    refPairRecordFilter (fun _ => true) { minFragSupport := 3 } 100 50 500
        { exampleRefRead with is_dup := true } = .ok none ∧
    getSVRefPairSupportRecord (fun _ => true) exampleSetReadEvidence { minFragSupport := 3 }
      100 20 false 50 500 flatDistro true emptyEvidence
      { exampleRefRead with is_dup := true } = .ok emptyEvidence :=
  getSVRefPairSupportRecord_rejected (fun _ => true) exampleSetReadEvidence
    { minFragSupport := 3 } 100 20 false 50 500 flatDistro true emptyEvidence
    { exampleRefRead with is_dup := true } (Or.inr (Or.inl rfl))

/-- C16: the flag isBpFragReversed of getFragProb equals the swap rule of the
specification (terminal 1 is not on the chromosome of bp1; otherwise its strand differs
from the orientation of bp1; otherwise the terminals have the same strand, their
positions differ, and t1.pos < t2.pos differs from center(bp1) < center(bp2)), and the
two terminals are exchanged exactly when that rule holds; with equal terminal positions
the order rule makes no swap. -/
theorem isBpFragReversed_eq_spec (sv : SVCandidate) (bp1pos bp2pos : pos_t)
    (frag1 frag2 : SpanTerminal) :
    isBpFragReversed sv bp1pos bp2pos frag1 frag2
      = specTerminalsSwapped sv bp1pos bp2pos frag1 frag2 ∧
    swapIfReversed sv bp1pos bp2pos frag1 frag2
      = (if specTerminalsSwapped sv bp1pos bp2pos frag1 frag2 then (frag2, frag1)
         else (frag1, frag2)) := by
  have h : isBpFragReversed sv bp1pos bp2pos frag1 frag2
      = specTerminalsSwapped sv bp1pos bp2pos frag1 frag2 := by
    obtain ⟨t1, x1, s1, n1⟩ := frag1
    obtain ⟨t2, x2, s2, n2⟩ := frag2
    obtain ⟨⟨⟨tb1, r1⟩, st1⟩, bp2, idx⟩ := sv
    unfold isBpFragReversed specTerminalsSwapped
    by_cases htid : t1 = tb1 <;> by_cases hpos : x1 = x2 <;>
      by_cases hlt : x1 < x2 <;> by_cases hb : bp1pos < bp2pos <;>
      cases s1 <;> cases s2 <;> cases st1 <;> simp [htid, hpos, hlt, hb]
  exact ⟨h, by unfold swapIfReversed; rw [h]⟩

/-! ## Half-fragment sizes, scan window, terminals and fragment range -/

/-- C17 (as stated, refuted): the far pair passes the consistency check against the far
candidate with half-fragment sizes 2147482950 and 2147482910, both at least
minFragSupport = 50; the size passed to the CDF is the 32-bit sum -1436, which is neither
the sum 4294965860 of the two half-fragment sizes nor at least 2 * minFragSupport. -/
theorem getFragProb_half_sizes_overflow :
    matchBpToFrag rangeCenter exampleFarCandidate exampleFarPair
      = .ok ({ tid := 1, pos := 50, isFwdStrand := true, readSize := 10 },
          { tid := 1, pos := 2147483010, isFwdStrand := false, readSize := 10 }) ∧
    qcFragBpMatchup exampleFarCandidate 2147483000 100
      { tid := 1, pos := 50, isFwdStrand := true, readSize := 10 }
      { tid := 1, pos := 2147483010, isFwdStrand := false, readSize := 10 } = none ∧
    rangeCenter exampleFarCandidate.bp1.interval.range = 2147483000 ∧
    rangeCenter exampleFarCandidate.bp2.interval.range = 100 ∧
    specHalfFragSize 2147483000
      { tid := 1, pos := 50, isFwdStrand := true, readSize := 10 } = 2147482950 ∧
    specHalfFragSize 100
      { tid := 1, pos := 2147483010, isFwdStrand := false, readSize := 10 } = 2147482910 ∧
    getFragProbSize rangeCenter exampleOpt exampleFarCandidate exampleFarPair true
      = .ok (some (-1436)) ∧
    ¬ (2 * exampleOpt.minFragSupport ≤ -1436) := by
  refine ⟨?_, ?_, ?_, ?_, ?_, ?_, ?_, ?_⟩
  · simp [matchBpToFrag, swapIfReversed, getFragInfo, getFragInfoRecord, getTerminal,
      isBpFragReversed, exampleFarPair, exampleFarCandidate, examplePair, exampleRead,
      exampleBp, rangeCenter, known_pos_range2.size]
  · simp [qcFragBpMatchup, exampleFarCandidate, exampleBp]
  · simp [exampleFarCandidate, exampleBp, rangeCenter, known_pos_range2.size]
  · simp [exampleFarCandidate, exampleBp, rangeCenter, known_pos_range2.size]
  · simp [specHalfFragSize]
  · simp [specHalfFragSize]
  · simp [getFragProbSize, matchBpToFrag, swapIfReversed, getFragInfo, getFragInfoRecord,
      getTerminal, isBpFragReversed, qcFragBpMatchup, fragSize, wrapInt32,
      exampleFarPair, exampleFarCandidate, examplePair, exampleRead, exampleBp, rangeCenter,
      known_pos_range2.size, exampleOpt]
  · simp [exampleOpt]

/-- C17 (amended): for every call of getFragProb that passes the consistency check, with
the half-fragment size of terminal i being center(bp_i) - terminal_i.pos, negated on the
reverse strand, and with the two half-fragment sizes and their sum within the 32-bit
signed range: if either half-fragment size is below minFragSupport the call returns
supported = false with probability 0 (and no size reaches the CDF); otherwise the size
passed to the CDF is exactly the sum of the two half-fragment sizes, the returned
probability is the two-sided probability of that sum, and the sum is at least
2 * minFragSupport. -/
theorem getFragProb_half_sizes (center_pos : known_pos_range2 → pos_t)
    (pairOpt : PairOptions) (sv : SVCandidate) (pair : SVCandidateSetReadPair)
    (fragDistro : SizeDistribution) (isStrictMatch : Bool) (frag1 frag2 : SpanTerminal)
    (hmatch : matchBpToFrag center_pos sv pair = .ok (frag1, frag2))
    (hqc : qcFragBpMatchup sv (center_pos sv.bp1.interval.range)
      (center_pos sv.bp2.interval.range) frag1 frag2 = none)
    (hr1 : -2147483648 ≤ specHalfFragSize (center_pos sv.bp1.interval.range) frag1 ∧
      specHalfFragSize (center_pos sv.bp1.interval.range) frag1 < 2147483648)
    (hr2 : -2147483648 ≤ specHalfFragSize (center_pos sv.bp2.interval.range) frag2 ∧
      specHalfFragSize (center_pos sv.bp2.interval.range) frag2 < 2147483648)
    (hsum : -2147483648 ≤ specHalfFragSize (center_pos sv.bp1.interval.range) frag1
        + specHalfFragSize (center_pos sv.bp2.interval.range) frag2 ∧
      specHalfFragSize (center_pos sv.bp1.interval.range) frag1
        + specHalfFragSize (center_pos sv.bp2.interval.range) frag2 < 2147483648) :
    (if specHalfFragSize (center_pos sv.bp1.interval.range) frag1 < pairOpt.minFragSupport ∨
        specHalfFragSize (center_pos sv.bp2.interval.range) frag2 < pairOpt.minFragSupport
      then
        getFragProb center_pos pairOpt sv pair fragDistro isStrictMatch = .ok (false, 0) ∧
        getFragProbSize center_pos pairOpt sv pair isStrictMatch = .ok none
      else
        getFragProbSize center_pos pairOpt sv pair isStrictMatch
          = .ok (some (specHalfFragSize (center_pos sv.bp1.interval.range) frag1
              + specHalfFragSize (center_pos sv.bp2.interval.range) frag2)) ∧
        getFragProb center_pos pairOpt sv pair fragDistro isStrictMatch
          = .ok (decide (twoSidedProb fragDistro
              (specHalfFragSize (center_pos sv.bp1.interval.range) frag1
                + specHalfFragSize (center_pos sv.bp2.interval.range) frag2) ≥ minFragProb),
            twoSidedProb fragDistro
              (specHalfFragSize (center_pos sv.bp1.interval.range) frag1
                + specHalfFragSize (center_pos sv.bp2.interval.range) frag2)) ∧
        2 * pairOpt.minFragSupport
          ≤ specHalfFragSize (center_pos sv.bp1.interval.range) frag1
            + specHalfFragSize (center_pos sv.bp2.interval.range) frag2) := by
  rw [getFragProb_eq_size,
    getFragProbSize_of_range center_pos pairOpt sv pair isStrictMatch frag1 frag2 hmatch
      hqc hr1 hr2 hsum]
  generalize specHalfFragSize (center_pos sv.bp1.interval.range) frag1 = half1
  generalize specHalfFragSize (center_pos sv.bp2.interval.range) frag2 = half2
  generalize pairOpt.minFragSupport = m
  unfold pos_t at *
  by_cases c1 : half1 < m
  · rw [if_pos (Or.inl c1), if_pos c1]
    exact ⟨rfl, rfl⟩
  · by_cases c2 : half2 < m
    · rw [if_pos (Or.inr c2), if_neg c1, if_pos c2]
      exact ⟨rfl, rfl⟩
    · rw [if_neg (by tauto), if_neg c1, if_neg c2]
      refine ⟨rfl, rfl, ?_⟩
      omega

/-- Witness of C17 (amended): the spanning pair passes the QC against the deletion; both
half sizes are 50 and the size passed to the CDF is 100. -/
theorem getFragProb_half_sizes_witness :
    getFragProbSize rangeCenter exampleOpt exampleDeletion exampleSpanningPair true
      = .ok (some 100) := by
  have h1 : specHalfFragSize (rangeCenter exampleDeletion.bp1.interval.range)
      { tid := 1, pos := 50, isFwdStrand := true, readSize := 10 } = 50 := by
    simp [specHalfFragSize, exampleDeletion, exampleBp, rangeCenter, known_pos_range2.size]
  have h2 : specHalfFragSize (rangeCenter exampleDeletion.bp2.interval.range)
      { tid := 1, pos := 250, isFwdStrand := false, readSize := 10 } = 50 := by
    simp [specHalfFragSize, exampleDeletion, exampleBp, rangeCenter, known_pos_range2.size]
  have h := getFragProb_half_sizes rangeCenter exampleOpt exampleDeletion
    exampleSpanningPair flatDistro true
    { tid := 1, pos := 50, isFwdStrand := true, readSize := 10 }
    { tid := 1, pos := 250, isFwdStrand := false, readSize := 10 }
    (by simp [matchBpToFrag, swapIfReversed, getFragInfo, getFragInfoRecord, getTerminal,
      isBpFragReversed, exampleSpanningPair, exampleDeletion, examplePair, exampleRead,
      exampleBp, rangeCenter, known_pos_range2.size])
    (by simp [qcFragBpMatchup, exampleDeletion, exampleBp])
    (by rw [h1]; decide)
    (by rw [h2]; decide)
    (by rw [h1, h2]; decide)
  rw [h1, h2, if_neg (by simp [exampleOpt])] at h
  exact h.1

/-- Without the range hypothesis the 32-bit computation wraps around: for a record at
position 2147483647 with template size 100 the computed end precedes the computed
begin. -/
theorem fragRangeInt32_overflow :
    (fragRangeInt32 (exampleRead "q" 0 2147483647 true 0 2147483647 false 100)).2
      < (fragRangeInt32 (exampleRead "q" 0 2147483647 true 0 2147483647 false 100)).1 := by
  simp [fragRangeInt32, wrapInt32, exampleRead]

/-- C12: in the record loop of the reference-support scan, for every record whose
position, mate position and template size are well-formed (positions non-negative and
within the 32-bit signed range, and the sum fragBegin + |templateSize| within that range),
the fragment range computed with 32-bit arithmetic is the exact one, its begin does not
exceed its end, and the record loop raises no error: the branch that reports a failed
fragment range is not reached. -/
theorem fragRange_well_formed (bamRead : bam_record)
    (hpos : 0 ≤ bamRead.pos) (hmate : 0 ≤ bamRead.mate_pos)
    (hposmax : bamRead.pos ≤ 2147483647) (hmatemax : bamRead.mate_pos ≤ 2147483647)
    (hsize : |bamRead.template_size| ≤ 2147483647)
    (hsum : min bamRead.pos bamRead.mate_pos - 1 + |bamRead.template_size| ≤ 2147483647) :
    fragRangeInt32 bamRead
      = (min bamRead.pos bamRead.mate_pos - 1,
         min bamRead.pos bamRead.mate_pos - 1 + |bamRead.template_size|) ∧
    (fragRangeInt32 bamRead).1 ≤ (fragRangeInt32 bamRead).2 ∧
    (∀ (is_innie_pair : bam_record → Bool) (pairOpt : PairOptions)
      (centerPos minFrag maxFrag : pos_t),
      ∃ result, refPairRecordFilter is_innie_pair pairOpt centerPos minFrag maxFrag bamRead
        = .ok result) := by
  have habs : 0 ≤ |bamRead.template_size| := abs_nonneg _
  have hrange : fragRangeInt32 bamRead
      = (min bamRead.pos bamRead.mate_pos - 1,
         min bamRead.pos bamRead.mate_pos - 1 + |bamRead.template_size|) := by
    unfold fragRangeInt32 wrapInt32
    dsimp only
    generalize |bamRead.template_size| = T at *
    unfold pos_t at *
    by_cases hlt : bamRead.pos < bamRead.mate_pos
    · rw [min_eq_left hlt.le] at hsum ⊢
      simp only [hlt, decide_True, if_true]
      refine Prod.ext ?_ ?_ <;> dsimp only <;> omega
    · rw [min_eq_right (not_lt.mp hlt)] at hsum ⊢
      simp only [hlt, decide_False, Bool.false_eq_true, if_false]
      refine Prod.ext ?_ ?_ <;> dsimp only <;> omega
  refine ⟨hrange, ?_, ?_⟩
  · rw [hrange]
    show min bamRead.pos bamRead.mate_pos - 1
      ≤ min bamRead.pos bamRead.mate_pos - 1 + |bamRead.template_size|
    linarith
  · intro is_innie_pair pairOpt centerPos minFrag maxFrag
    unfold refPairRecordFilter
    by_cases c1 : bamRead.is_filter = true
    · rw [if_pos c1]; exact ⟨_, rfl⟩
    rw [if_neg c1]
    by_cases c2 : bamRead.is_dup = true
    · rw [if_pos c2]; exact ⟨_, rfl⟩
    rw [if_neg c2]
    by_cases c3 : bamRead.is_secondary = true
    · rw [if_pos c3]; exact ⟨_, rfl⟩
    rw [if_neg c3]
    by_cases c4 : bamRead.is_supplement = true
    · rw [if_pos c4]; exact ⟨_, rfl⟩
    rw [if_neg c4]
    by_cases c5 : (bamRead.is_unmapped || bamRead.is_mate_unmapped) = true
    · rw [if_pos c5]; exact ⟨_, rfl⟩
    rw [if_neg c5]
    by_cases c6 : ¬ is_innie_pair bamRead = true
    · rw [if_pos c6]; exact ⟨_, rfl⟩
    rw [if_neg c6]
    dsimp only
    by_cases c7 : |bamRead.template_size| < minFrag
    · rw [if_pos c7]; exact ⟨_, rfl⟩
    rw [if_neg c7]
    by_cases c8 : |bamRead.template_size| > maxFrag
    · rw [if_pos c8]; exact ⟨_, rfl⟩
    rw [if_neg c8]
    generalize |bamRead.template_size| = T at *
    unfold pos_t at *
    rw [if_neg (by split_ifs <;> omega)]
    split_ifs <;> exact ⟨_, rfl⟩

/-- Witness of C12: the example record (pos 51, mate pos 141, template size 100). -/
theorem fragRange_well_formed_witness :
    fragRangeInt32 exampleRefRead = (50, 150) := by
  have h := (fragRange_well_formed exampleRefRead
    (by simp [exampleRefRead, exampleRead]) (by simp [exampleRefRead, exampleRead])
    (by simp [exampleRefRead, exampleRead]) (by simp [exampleRefRead, exampleRead])
    (by simp [exampleRefRead, exampleRead]) (by simp [exampleRefRead, exampleRead])).1
  rw [h]
  simp [exampleRefRead, exampleRead]

/-! ## Idempotence of the reconciler -/

theorem alt_setSample_assign (evidence : SVEvidence) (isTumor : Bool) (qname : String)
    (fragment : SVFragmentEvidence) (t : Bool) (q : String) :
    (((evidence.setSample isTumor
        ((evidence.getSample isTumor).assign qname fragment)).getSample t).subscript q).alt
      = if t = isTumor ∧ q = qname then fragment.alt
        else ((evidence.getSample t).subscript q).alt := by
  by_cases ht : t = isTumor
  · subst ht
    by_cases hq : q = qname
    · subst hq
      rw [getSample_setSample, subscript_assign, if_pos ⟨rfl, rfl⟩]
    · rw [getSample_setSample, subscript_assign_ne _ _ _ _ hq, if_neg (fun h => hq h.2)]
  · rw [getSample_setSample_ne _ _ _ _ ht, if_neg (fun h => ht h.1)]

theorem processExistingAltPair_overwrite (center_pos : known_pos_range2 → pos_t)
    (isPairType : Nat → Bool)
    (setReadEvidence : Nat → bam_record → SVFragmentEvidenceRead → SVFragmentEvidenceRead)
    (pairOpt : PairOptions) (sv : SVCandidate) (minMapQ : Nat) (isTumor : Bool)
    (fragDistro : SizeDistribution) (pair : SVCandidateSetReadPair) :
    (∃ x, ∀ evidence, processExistingAltPair center_pos isPairType setReadEvidence pairOpt sv
        minMapQ isTumor fragDistro evidence pair = .error x) ∨
    (∃ w : Bool → String → Option SVFragmentEvidenceAllele, ∀ evidence,
      ∃ evidence1, processExistingAltPair center_pos isPairType setReadEvidence pairOpt sv
          minMapQ isTumor fragDistro evidence pair = .ok evidence1 ∧
        ∀ t q, ((evidence1.getSample t).subscript q).alt
          = (w t q).getD ((evidence.getSample t).subscript q).alt) := by
  unfold processExistingAltPair
  by_cases hset : (pair.read1.isSet || pair.read2.isSet) = true
  swap
  · left
    exact ⟨Failure.assertNoRead, fun evidence => by rw [if_pos hset]⟩
  simp only [hset, not_true_eq_false, if_false]
  cases hlink : findLinkIndex sv.candidateIndex pair.svLink 0 with
  | none =>
    right
    exact ⟨fun _ _ => none, fun evidence => ⟨evidence, rfl, fun t q => rfl⟩⟩
  | some linkIndex =>
    dsimp only
    cases hget : pair.svLink[linkIndex]? with
    | none =>
      left
      exact ⟨Failure.assertLinkIndex, fun evidence => rfl⟩
    | some link =>
      dsimp only
      cases hprob : getFragProb center_pos pairOpt sv pair fragDistro
          (isPairType link.evtype) with
      | error e =>
        left
        exact ⟨e, fun evidence => rfl⟩
      | ok result =>
        obtain ⟨isFragSupportSV, fragProb⟩ := result
        right
        dsimp only
        by_cases hwrite : isFragSupportSV = true ∧ ¬ fragProb ≤ 0
        · refine ⟨fun t q => if t = isTumor ∧ q = pair.qname then
            some { bp1 := { isFragmentSupport := true, fragLengthProb := fragProb }
                   bp2 := { isFragmentSupport := true, fragLengthProb := fragProb } }
            else none, fun evidence => ?_⟩
          rw [if_neg (by simp [hwrite.1]), if_neg hwrite.2]
          refine ⟨_, rfl, fun t q => ?_⟩
          rw [alt_setSample_assign]
          by_cases hk : t = isTumor ∧ q = pair.qname
          · rw [if_pos hk]
            beta_reduce
            rw [if_pos hk]
            rfl
          · rw [if_neg hk]
            beta_reduce
            rw [if_neg hk]
            rfl
        · refine ⟨fun _ _ => none, fun evidence => ?_⟩
          have hres : (if ¬ isFragSupportSV = true then
                (Except.ok (evidence.setSample isTumor
                  ((evidence.getSample isTumor).assign pair.qname
                    (setPairReadEvidence setReadEvidence minMapQ pair
                      ((evidence.getSample isTumor).subscript pair.qname)))) :
                  Except Failure SVEvidence)
              else if fragProb ≤ 0 then
                Except.ok (evidence.setSample isTumor
                  ((evidence.getSample isTumor).assign pair.qname
                    (setPairReadEvidence setReadEvidence minMapQ pair
                      ((evidence.getSample isTumor).subscript pair.qname))))
              else
                Except.ok (evidence.setSample isTumor
                  ((evidence.getSample isTumor).assign pair.qname
                    (setAltFragSupport (setPairReadEvidence setReadEvidence minMapQ pair
                      ((evidence.getSample isTumor).subscript pair.qname)) fragProb))))
              = Except.ok (evidence.setSample isTumor
                  ((evidence.getSample isTumor).assign pair.qname
                    (setPairReadEvidence setReadEvidence minMapQ pair
                      ((evidence.getSample isTumor).subscript pair.qname)))) := by
            by_cases hs : isFragSupportSV = true
            · have hle : fragProb ≤ 0 := by
                by_contra hcon
                exact hwrite ⟨hs, hcon⟩
              rw [if_neg (not_not.mpr hs), if_pos hle]
            · rw [if_pos hs]
          refine ⟨_, hres, fun t q => ?_⟩
          rw [alt_setSample_assign]
          by_cases hk : t = isTumor ∧ q = pair.qname
          · rw [if_pos hk, (setPairReadEvidence_alt _ _ _ _).1, hk.1, hk.2]
            rfl
          · rw [if_neg hk]
            rfl

theorem foldlM_overwrite {α : Type} (f : SVEvidence → α → Except Failure SVEvidence)
    (l : List α)
    (hstep : ∀ a ∈ l,
      (∃ x, ∀ evidence, f evidence a = .error x) ∨
      (∃ w : Bool → String → Option SVFragmentEvidenceAllele, ∀ evidence,
        ∃ evidence1, f evidence a = .ok evidence1 ∧
          ∀ t q, ((evidence1.getSample t).subscript q).alt
            = (w t q).getD ((evidence.getSample t).subscript q).alt)) :
    (∃ x, ∀ evidence, l.foldlM f evidence = .error x) ∨
    (∃ w : Bool → String → Option SVFragmentEvidenceAllele, ∀ evidence,
      ∃ evidence1, l.foldlM f evidence = .ok evidence1 ∧
        ∀ t q, ((evidence1.getSample t).subscript q).alt
          = (w t q).getD ((evidence.getSample t).subscript q).alt) := by
  induction l with
  | nil =>
    right
    exact ⟨fun _ _ => none, fun evidence => ⟨evidence, rfl, fun t q => rfl⟩⟩
  | cons a rest ih =>
    have ihrest := ih (fun b hb => hstep b (List.mem_cons_of_mem _ hb))
    rcases hstep a (List.mem_cons_self _ _) with ⟨x, hx⟩ | ⟨w1, hw1⟩
    · left
      refine ⟨x, fun evidence => ?_⟩
      rw [List.foldlM_cons, hx evidence]
      rfl
    · rcases ihrest with ⟨x, hx⟩ | ⟨w2, hw2⟩
      · left
        refine ⟨x, fun evidence => ?_⟩
        obtain ⟨e1, he1, _⟩ := hw1 evidence
        rw [List.foldlM_cons, he1]
        exact hx e1
      · right
        refine ⟨fun t q => (w2 t q).orElse (fun _ => w1 t q), fun evidence => ?_⟩
        obtain ⟨e1, he1, halt1⟩ := hw1 evidence
        obtain ⟨e2, he2, halt2⟩ := hw2 e1
        refine ⟨e2, ?_, fun t q => ?_⟩
        · rw [List.foldlM_cons, he1]
          exact he2
        · rw [halt2, halt1]
          beta_reduce
          cases w2 t q <;> rfl

theorem processExistingAltPairInfo_overwrite (center_pos : known_pos_range2 → pos_t)
    (isPairType : Nat → Bool)
    (setReadEvidence : Nat → bam_record → SVFragmentEvidenceRead → SVFragmentEvidenceRead)
    (self : SVScorer) (pairOpt : PairOptions) (svData : Nat → List SVCandidateSetReadPair)
    (sv : SVCandidate) :
    (∃ x, ∀ evidence, processExistingAltPairInfo center_pos isPairType setReadEvidence self
        pairOpt svData sv evidence = .error x) ∨
    (∃ w : Bool → String → Option SVFragmentEvidenceAllele, ∀ evidence,
      ∃ evidence1, processExistingAltPairInfo center_pos isPairType setReadEvidence self
          pairOpt svData sv evidence = .ok evidence1 ∧
        ∀ t q, ((evidence1.getSample t).subscript q).alt
          = (w t q).getD ((evidence.getSample t).subscript q).alt) := by
  unfold processExistingAltPairInfo
  apply foldlM_overwrite
  intro bamIndex _
  apply foldlM_overwrite
  intro pair _
  exact processExistingAltPair_overwrite center_pos isPairType setReadEvidence pairOpt sv _ _
    _ pair

/-- C13: idempotence of the reconciler: whenever processExistingAltPairInfo raises no
error on an evidence structure (a fresh one in particular), running it a second time on
the result raises no error either and leaves the alternate-allele support flags and
probabilities of every fragment equal to those after the first run. -/
theorem processExistingAltPairInfo_idempotent (center_pos : known_pos_range2 → pos_t)
    (isPairType : Nat → Bool)
    (setReadEvidence : Nat → bam_record → SVFragmentEvidenceRead → SVFragmentEvidenceRead)
    (self : SVScorer) (pairOpt : PairOptions) (svData : Nat → List SVCandidateSetReadPair)
    (sv : SVCandidate) (evidence evidence1 : SVEvidence)
    (hrun : processExistingAltPairInfo center_pos isPairType setReadEvidence self pairOpt
      svData sv evidence = .ok evidence1) :
    ∃ evidence2, processExistingAltPairInfo center_pos isPairType setReadEvidence self pairOpt
        svData sv evidence1 = .ok evidence2 ∧
      ∀ t q, ((evidence2.getSample t).subscript q).alt
        = ((evidence1.getSample t).subscript q).alt := by
  rcases processExistingAltPairInfo_overwrite center_pos isPairType setReadEvidence self
      pairOpt svData sv with ⟨x, hx⟩ | ⟨w, hw⟩
  · rw [hx evidence] at hrun
    cases hrun
  · obtain ⟨e1, he1, halt1⟩ := hw evidence
    rw [hrun] at he1
    injection he1 with he1
    subst he1
    obtain ⟨e2, he2, halt2⟩ := hw evidence1
    refine ⟨e2, he2, fun t q => ?_⟩
    rw [halt2, halt1]
    cases w t q <;> rfl

/-- Witness of C13: one normal sample whose data group holds the spanning pair, reconciled
for the deletion from an evidence structure without fragments. -/
theorem processExistingAltPairInfo_idempotent_witness :
    ∃ evidence2, processExistingAltPairInfo rangeCenter exampleIsPairType
        exampleSetReadEvidence exampleScorer exampleOpt (fun _ => [exampleSpanningPair])
        exampleDeletion
        (emptyEvidence.setSample false ((emptyEvidence.getSample false).assign "q"
          (setAltFragSupport (setPairReadEvidence exampleSetReadEvidence 20
            exampleSpanningPair ((emptyEvidence.getSample false).subscript "q")) (1 / 2))))
        = .ok evidence2 ∧
      ∀ t q, ((evidence2.getSample t).subscript q).alt
        = (((emptyEvidence.setSample false ((emptyEvidence.getSample false).assign "q"
          (setAltFragSupport (setPairReadEvidence exampleSetReadEvidence 20
            exampleSpanningPair ((emptyEvidence.getSample false).subscript "q"))
            (1 / 2)))).getSample t).subscript q).alt :=
  processExistingAltPairInfo_idempotent rangeCenter exampleIsPairType exampleSetReadEvidence
    exampleScorer exampleOpt (fun _ => [exampleSpanningPair]) exampleDeletion emptyEvidence
    _
    (by
      have hprob : getFragProb rangeCenter exampleOpt exampleDeletion exampleSpanningPair
          flatDistro true = .ok (true, 1 / 2) := by
        simp [getFragProb, matchBpToFrag, swapIfReversed, getFragInfo, getFragInfoRecord,
          getTerminal, isBpFragReversed, qcFragBpMatchup, fragSize, wrapInt32, exampleSpanningPair,
          exampleDeletion, examplePair, exampleRead, exampleBp, rangeCenter,
          known_pos_range2.size, minFragProb, flatDistro, exampleOpt]
        norm_num
      have hpair : processExistingAltPair rangeCenter exampleIsPairType
          exampleSetReadEvidence exampleOpt exampleDeletion 20 false flatDistro
          emptyEvidence exampleSpanningPair
          = .ok (emptyEvidence.setSample false ((emptyEvidence.getSample false).assign "q"
              (setAltFragSupport (setPairReadEvidence exampleSetReadEvidence 20
                exampleSpanningPair ((emptyEvidence.getSample false).subscript "q"))
                (1 / 2)))) := by
        have hlink : findLinkIndex exampleDeletion.candidateIndex exampleSpanningPair.svLink 0
            = some 0 := by
          simp [findLinkIndex, exampleSpanningPair, examplePair, exampleDeletion]
        have hget : exampleSpanningPair.svLink[0]? = some ⟨0, 0⟩ := by
          simp [exampleSpanningPair, examplePair]
        have hset : (exampleSpanningPair.read1.isSet || exampleSpanningPair.read2.isSet)
            = true := by
          simp [exampleSpanningPair, examplePair]
        have hstrict : exampleIsPairType 0 = true := rfl
        have hq : exampleSpanningPair.qname = "q" := rfl
        unfold processExistingAltPair
        simp only [hset, not_true_eq_false, if_false, hlink, hget, hstrict, hprob, hq,
          Bool.not_true, Bool.false_eq_true]
        rw [if_neg (by norm_num)]
      have hlen : List.range exampleScorer._bamStreams.length = [0] := rfl
      unfold processExistingAltPairInfo
      simp only [hlen, List.foldlM_cons, List.foldlM_nil]
      have hargs : processExistingAltPair rangeCenter exampleIsPairType
          exampleSetReadEvidence exampleOpt exampleDeletion
          exampleScorer._readScanner.getMinMapQ (exampleScorer._isAlignmentTumor 0)
          (exampleScorer._readScanner.getFragSizeDistro 0) emptyEvidence exampleSpanningPair
          = .ok (emptyEvidence.setSample false ((emptyEvidence.getSample false).assign "q"
              (setAltFragSupport (setPairReadEvidence exampleSetReadEvidence 20
                exampleSpanningPair ((emptyEvidence.getSample false).subscript "q"))
                (1 / 2)))) := hpair
      rw [hargs]
      rfl)

/-! ## Unsupported pairs and the bounds of the index map -/

/-- C21: in the pair loop of processExistingAltPairInfo, for every stored pair linked to
the candidate for which getFragProb returns without error a result that is not supported
or has probability at most 0, a fragment entry for the query name of the pair exists
afterwards, and its alternate-allele records for both breakends are the ones the fragment
had before the pair was processed (recorded support is not withdrawn); on a fresh entry
they stay unset (flag false, probability 0). -/
theorem processExistingAltPair_not_supported (center_pos : known_pos_range2 → pos_t)
    (isPairType : Nat → Bool)
    (setReadEvidence : Nat → bam_record → SVFragmentEvidenceRead → SVFragmentEvidenceRead)
    (pairOpt : PairOptions) (sv : SVCandidate) (minMapQ : Nat) (isTumor : Bool)
    (fragDistro : SizeDistribution) (evidence : SVEvidence) (pair : SVCandidateSetReadPair)
    (linkIndex : Nat) (link : SVPairAssociation) (isFragSupportSV : Bool) (fragProb : ℚ)
    (hlink : findLinkIndex sv.candidateIndex pair.svLink 0 = some linkIndex)
    (hget : pair.svLink[linkIndex]? = some link)
    (hprob : getFragProb center_pos pairOpt sv pair fragDistro (isPairType link.evtype)
      = .ok (isFragSupportSV, fragProb))
    (hno : isFragSupportSV = false ∨ fragProb ≤ 0) :
    ∃ evidence1, processExistingAltPair center_pos isPairType setReadEvidence pairOpt sv
        minMapQ isTumor fragDistro evidence pair = .ok evidence1 ∧
      (evidence1.getSample isTumor pair.qname).isSome = true ∧
      ((evidence1.getSample isTumor).subscript pair.qname).alt
        = ((evidence.getSample isTumor).subscript pair.qname).alt ∧
      (evidence.getSample isTumor pair.qname = none →
        ((evidence1.getSample isTumor).subscript pair.qname).alt
          = { bp1 := { isFragmentSupport := false, fragLengthProb := 0 }
              bp2 := { isFragmentSupport := false, fragLengthProb := 0 } }) := by
  have hset := getFragProb_isSet_of_ok center_pos pairOpt sv pair fragDistro _ _ hprob
  have hset2 : (pair.read1.isSet || pair.read2.isSet) = true := by
    rcases hset with h | h <;> simp [h]
  have hrun : processExistingAltPair center_pos isPairType setReadEvidence pairOpt sv
      minMapQ isTumor fragDistro evidence pair
      = .ok (evidence.setSample isTumor ((evidence.getSample isTumor).assign pair.qname
          (setPairReadEvidence setReadEvidence minMapQ pair
            ((evidence.getSample isTumor).subscript pair.qname)))) := by
    unfold processExistingAltPair
    simp only [hset2, not_true_eq_false, if_false, hlink, hget, hprob]
    by_cases hs : isFragSupportSV = true
    · have hle : fragProb ≤ 0 := by
        rcases hno with h | h
        · rw [h] at hs; cases hs
        · exact h
      rw [if_neg (not_not.mpr hs), if_pos hle]
    · rw [if_pos hs]
  have halt : (((evidence.setSample isTumor ((evidence.getSample isTumor).assign pair.qname
      (setPairReadEvidence setReadEvidence minMapQ pair
        ((evidence.getSample isTumor).subscript pair.qname)))).getSample
          isTumor).subscript pair.qname).alt
      = ((evidence.getSample isTumor).subscript pair.qname).alt := by
    rw [getSample_setSample, subscript_assign, (setPairReadEvidence_alt _ _ _ _).1]
  refine ⟨_, hrun, ?_, halt, ?_⟩
  · rw [getSample_setSample]
    simp [evidenceTrack_t.assign]
  · intro hfresh
    rw [halt]
    simp [evidenceTrack_t.subscript, hfresh]


/-- Witness of C21: the spanning pair, linked to candidate 0, against the deletion under
a CDF of 0.00005: getFragProb returns not-supported, and the fresh entry stays unset. -/
theorem processExistingAltPair_not_supported_witness :
    ∃ evidence1, processExistingAltPair rangeCenter exampleIsPairType exampleSetReadEvidence
        exampleOpt exampleDeletion 20 false tailDistro emptyEvidence exampleSpanningPair
        = .ok evidence1 ∧
      (evidence1.getSample false exampleSpanningPair.qname).isSome = true ∧
      ((evidence1.getSample false).subscript exampleSpanningPair.qname).alt
        = ((emptyEvidence.getSample false).subscript exampleSpanningPair.qname).alt ∧
      (emptyEvidence.getSample false exampleSpanningPair.qname = none →
        ((evidence1.getSample false).subscript exampleSpanningPair.qname).alt
          = { bp1 := { isFragmentSupport := false, fragLengthProb := 0 }
              bp2 := { isFragmentSupport := false, fragLengthProb := 0 } }) :=
  processExistingAltPair_not_supported rangeCenter exampleIsPairType exampleSetReadEvidence
    exampleOpt exampleDeletion 20 false tailDistro emptyEvidence exampleSpanningPair
    0 ⟨0, 0⟩ false (5 / 100000)
    (by simp [findLinkIndex, exampleSpanningPair, examplePair, exampleDeletion])
    (by simp [exampleSpanningPair, examplePair])
    (by
      simp [getFragProb, matchBpToFrag, swapIfReversed, getFragInfo, getFragInfoRecord,
        getTerminal, isBpFragReversed, qcFragBpMatchup, fragSize, wrapInt32, exampleSpanningPair,
        exampleDeletion, examplePair, exampleRead, exampleBp, rangeCenter,
        known_pos_range2.size, minFragProb, tailDistro, exampleOpt, exampleIsPairType]
      norm_num)
    (Or.inl rfl)

/-- When some processor requests an empty interval for the sample, the compressor receives
fewer intervals than there are processors. -/
theorem requestedScanIntervals_length_lt (bamProcList : List bamProc) (bamIndex : Nat)
    (bpp : bamProc) (hmem : bpp ∈ bamProcList)
    (hempty : (bpp.nextBamIndex bamIndex).range.size < 1) :
    (requestedScanIntervals bamProcList bamIndex).length < bamProcList.length := by
  unfold requestedScanIntervals
  induction bamProcList with
  | nil => cases hmem
  | cons head rest ih =>
    rw [List.map_cons, List.filter_cons]
    rcases List.mem_cons.mp hmem with hhead | hrest
    · subst hhead
      rw [if_neg (by simpa using hempty)]
      have hle := List.length_filter_le
        (fun interval : GenomeInterval => decide (¬ (interval.range.size < 1)))
        (rest.map (fun b => b.nextBamIndex bamIndex))
      rw [List.length_map] at hle
      rw [List.length_cons]
      omega
    · have hlt := ih hrest
      split_ifs
      · rw [List.length_cons, List.length_cons]
        omega
      · rw [List.length_cons]
        omega

/-- C22 (code at the failing input): two processors, the first requesting an empty
interval and the second the interval [10, 20); the compressor maps the single non-empty
request to covering interval 0. The index map has one entry while the processor count is
two, so the lookup intervalMap[1] made while targetProcs is built for covering interval 0
is past the end of the map: the lookup finds no entry, and the value read there decides
whether processor 1 is selected. -/
theorem processBamProcList_map_read_out_of_bounds
    (intervalCompressor : List GenomeInterval → List GenomeInterval × List Nat)
    (outOfBounds : Nat → Nat)
    (hcompress : intervalCompressor [windowProc.nextBamIndex 0]
      = ([windowProc.nextBamIndex 0], [0])) :
    (1 : Nat) < [emptyRequestProc, windowProc].length ∧
    (intervalCompressor (requestedScanIntervals [emptyRequestProc, windowProc] 0)).2.length
      = 1 ∧
    (intervalCompressor (requestedScanIntervals [emptyRequestProc, windowProc] 0)).2[1]?
      = none ∧
    vectorRead (intervalCompressor (requestedScanIntervals [emptyRequestProc, windowProc] 0)).2
      outOfBounds 1 = outOfBounds 1 ∧
    targetProcs (intervalCompressor (requestedScanIntervals [emptyRequestProc, windowProc] 0)).2
      outOfBounds [emptyRequestProc, windowProc].length 0
      = if outOfBounds 1 = 0 then [0, 1] else [0] := by
  have hreq : requestedScanIntervals [emptyRequestProc, windowProc] 0
      = [windowProc.nextBamIndex 0] := by
    simp [requestedScanIntervals, emptyRequestProc, windowProc, known_pos_range2.size]
  rw [hreq, hcompress]
  refine ⟨by simp, rfl, rfl, rfl, ?_⟩
  simp [targetProcs, vectorRead, List.range_succ, List.filter_cons]
  split_ifs <;> simp

/-- Witness of C22: the identity compressor satisfies the hypothesis, and the value read
past the end of the map is taken to be 7. -/
theorem processBamProcList_map_read_out_of_bounds_witness :
    (1 : Nat) < [emptyRequestProc, windowProc].length ∧
    (identityCompressor (requestedScanIntervals [emptyRequestProc, windowProc] 0)).2.length
      = 1 ∧
    (identityCompressor (requestedScanIntervals [emptyRequestProc, windowProc] 0)).2[1]?
      = none ∧
    vectorRead (identityCompressor (requestedScanIntervals [emptyRequestProc, windowProc] 0)).2
      (fun _ => 7) 1 = 7 ∧
    targetProcs (identityCompressor (requestedScanIntervals [emptyRequestProc, windowProc] 0)).2
      (fun _ => 7) [emptyRequestProc, windowProc].length 0 = [0] :=
  processBamProcList_map_read_out_of_bounds identityCompressor (fun _ => 7)
    (by simp [identityCompressor, List.range_succ])

end Manta
